import Mathlib

/-!
Verification of the CHPP reliable transport layer of android_system_chre.

The data model (wire header layout, flag/attribute/error-code constants,
queue capacity, state enums) is embedded from
src/chpp/include/chpp/transport.h.  The behavioural parts (receive state
machine, transmit engine, reset handshake), whose implementation file
transport.c is not part of the sources at hand, are modelled from the
specification's component design (sections 4.1-4.4, 6) and from the
documented contracts in transport.h.
-/

set_option maxRecDepth 4000
set_option linter.unusedVariables false

namespace Chpp

/-! ## Constants from transport.h -/

/-- CHPP_PREAMBLE_DATA from transport.h line 61. -/
def CHPP_PREAMBLE_DATA : Nat := 0x6843

/-- CHPP_PREAMBLE_LEN_BYTES from transport.h line 62. -/
def CHPP_PREAMBLE_LEN_BYTES : Nat := 2

/-- The chppPreambleByte macro from transport.h line 70:
 a specific byte of the preamble on the wire. -/
def chppPreambleByte (loc : Nat) : Nat :=
  (CHPP_PREAMBLE_DATA >>> (8 * (CHPP_PREAMBLE_LEN_BYTES - loc - 1))) % 256

/-- CHPP_PREAMBLE_BYTE_FIRST from transport.h line 72. -/
def CHPP_PREAMBLE_BYTE_FIRST : Nat := chppPreambleByte 0

/-- CHPP_PREAMBLE_BYTE_SECOND from transport.h line 73. -/
def CHPP_PREAMBLE_BYTE_SECOND : Nat := chppPreambleByte 1

/-- The two preamble bytes in wire order. -/
def chppPreambleBytes : List Nat :=
  [CHPP_PREAMBLE_BYTE_FIRST, CHPP_PREAMBLE_BYTE_SECOND]

/-- CHPP_TX_DATAGRAM_QUEUE_LEN from transport.h line 82. -/
def CHPP_TX_DATAGRAM_QUEUE_LEN : Nat := 16

/-- CHPP_TRANSPORT_FLAG_FINISHED_DATAGRAM from transport.h line 44. -/
def CHPP_TRANSPORT_FLAG_FINISHED_DATAGRAM : Nat := 0x00

/-- CHPP_TRANSPORT_FLAG_UNFINISHED_DATAGRAM from transport.h line 46. -/
def CHPP_TRANSPORT_FLAG_UNFINISHED_DATAGRAM : Nat := 0x01

/-- CHPP_TRANSPORT_FLAG_RESET from transport.h line 48. -/
def CHPP_TRANSPORT_FLAG_RESET : Nat := 0x02

/-! Error codes of enum ChppTransportErrorCode, transport.h lines 108-125. -/

/-- CHPP_TRANSPORT_ERROR_NONE. -/
def CHPP_TRANSPORT_ERROR_NONE : Nat := 0
/-- CHPP_TRANSPORT_ERROR_CHECKSUM. -/
def CHPP_TRANSPORT_ERROR_CHECKSUM : Nat := 1
/-- CHPP_TRANSPORT_ERROR_OOM. -/
def CHPP_TRANSPORT_ERROR_OOM : Nat := 2
/-- CHPP_TRANSPORT_ERROR_BUSY. -/
def CHPP_TRANSPORT_ERROR_BUSY : Nat := 3
/-- CHPP_TRANSPORT_ERROR_HEADER : Nat. -/
def CHPP_TRANSPORT_ERROR_HEADER : Nat := 4
/-- CHPP_TRANSPORT_ERROR_ORDER. -/
def CHPP_TRANSPORT_ERROR_ORDER : Nat := 5
/-- CHPP_TRANSPORT_ERROR_APPLAYER. -/
def CHPP_TRANSPORT_ERROR_APPLAYER : Nat := 6
/-- CHPP_TRANSPORT_ERROR_TIMEOUT (implicit, internal only). -/
def CHPP_TRANSPORT_ERROR_TIMEOUT : Nat := 0xF

/-- The CHPP_TRANSPORT_ATTR_VALUE macro from transport.h line 131:
 places a packet attribute in the most significant nibble of the
 packetCode byte. -/
def CHPP_TRANSPORT_ATTR_VALUE (value : Nat) : Nat := (value % 16) * 16

/-- CHPP_TRANSPORT_ATTR_NONE from transport.h line 135. -/
def CHPP_TRANSPORT_ATTR_NONE : Nat := CHPP_TRANSPORT_ATTR_VALUE 0

/-- CHPP_TRANSPORT_ATTR_RESET from transport.h line 137. -/
def CHPP_TRANSPORT_ATTR_RESET : Nat := CHPP_TRANSPORT_ATTR_VALUE 1

/-- CHPP_TRANSPORT_ATTR_RESET_ACK from transport.h line 139. -/
def CHPP_TRANSPORT_ATTR_RESET_ACK : Nat := CHPP_TRANSPORT_ATTR_VALUE 2

/-- Most significant nibble of a packetCode byte: the packet attribute. -/
def chppPacketAttr (packetCode : Nat) : Nat := (packetCode / 16) % 16

/-- Least significant nibble of a packetCode byte: the error code. -/
def chppPacketError (packetCode : Nat) : Nat := packetCode % 16

/-! ## Wire structures from transport.h -/

/-- Struct ChppTransportHeader, transport.h lines 146-165: flags,
 packetCode, ackSeq, seq (one byte each), then length and reserved
 (uint16, little endian on the wire since the struct is packed). -/
structure ChppTransportHeader where
  flags : Nat
  packetCode : Nat
  ackSeq : Nat
  seq : Nat
  length : Nat
  reserved : Nat
deriving Repr, DecidableEq

/-- Enum ChppRxState, transport.h lines 178-195. -/
inductive ChppRxState where
  | preamble
  | header
  | payload
  | footer
deriving Repr, DecidableEq

/-- Enum ChppResetState, transport.h lines 197-200. -/
inductive ChppResetState where
  | resetting
  | none
deriving Repr, DecidableEq

/-- Struct ChppVersion, transport.h lines 206-215. -/
structure ChppVersion where
  major : Nat
  minor : Nat
  patch : Nat
deriving Repr, DecidableEq

/-- Struct ChppTransportConfiguration, transport.h lines 224-236: the
 payload sent along reset and reset-ack packets. -/
structure ChppTransportConfiguration where
  version : ChppVersion
  rxMtu : Nat
  windowSize : Nat
  timeoutInMs : Nat
deriving Repr, DecidableEq

/-! ## Little endian serialization (packed structs on the wire) -/

/-- Two little-endian bytes of a uint16 value. -/
def serializeU16 (x : Nat) : List Nat := [x % 256, (x / 256) % 256]

/-- Four little-endian bytes of a uint32 value. -/
def serializeU32 (x : Nat) : List Nat :=
  [x % 256, (x / 256) % 256, (x / 65536) % 256, (x / 16777216) % 256]

/-- Reads a uint16 from the first two bytes of a list (little endian). -/
def parseU16 (b : List Nat) : Nat := b.getD 0 0 + 256 * b.getD 1 0

/-- Reads a uint32 from the first four bytes of a list (little endian). -/
def parseU32 (b : List Nat) : Nat :=
  b.getD 0 0 + 256 * b.getD 1 0 + 65536 * b.getD 2 0 + 16777216 * b.getD 3 0

/-- Serializes a ChppTransportHeader in the packed declaration order of
 transport.h lines 146-165, multi-byte fields little endian. -/
def chppSerializeHeader (h : ChppTransportHeader) : List Nat :=
  [h.flags % 256, h.packetCode % 256, h.ackSeq % 256, h.seq % 256] ++
    serializeU16 h.length ++ serializeU16 h.reserved

/-- Parses a ChppTransportHeader from eight raw bytes. -/
def chppParseHeader (b : List Nat) : ChppTransportHeader :=
  { flags := b.getD 0 0
    packetCode := b.getD 1 0
    ackSeq := b.getD 2 0
    seq := b.getD 3 0
    length := parseU16 (b.drop 4)
    reserved := parseU16 (b.drop 6) }

/-- Serializes a ChppTransportConfiguration in the packed declaration
 order of transport.h lines 224-236. -/
def chppSerializeConfig (c : ChppTransportConfiguration) : List Nat :=
  [c.version.major % 256, c.version.minor % 256] ++
    serializeU16 c.version.patch ++ serializeU16 c.rxMtu ++
    serializeU16 c.windowSize ++ serializeU16 c.timeoutInMs

/-- Encodes a complete packet for the wire: preamble, packed header,
 payload, then the 32-bit checksum footer computed by the checksum
 function crc over preamble, header and payload (spec section 3). -/
def chppEncodePacket (crc : List Nat → Nat) (h : ChppTransportHeader)
    (payload : List Nat) : List Nat :=
  let body := chppPreambleBytes ++ chppSerializeHeader h ++ payload
  body ++ serializeU32 (crc body)

/-- Decodes a wire packet: checks the preamble, the declared payload
 length against the byte count, and the footer checksum; yields the
 header and payload on success. -/
def chppDecodePacket (crc : List Nat → Nat) (b : List Nat) :
    Option (ChppTransportHeader × List Nat) :=
  if b.length < 14 then Option.none
  else if b.take 2 ≠ chppPreambleBytes then Option.none
  else if b.length ≠ 14 + (chppParseHeader ((b.drop 2).take 8)).length then
    Option.none
  else if parseU32 (b.drop (10 + (chppParseHeader ((b.drop 2).take 8)).length)) ≠
      crc (b.take (10 + (chppParseHeader ((b.drop 2).take 8)).length)) %
        4294967296 then Option.none
  else some (chppParseHeader ((b.drop 2).take 8),
    (b.drop 10).take (chppParseHeader ((b.drop 2).take 8)).length)

/-! ## Basic roundtrip lemmas -/

theorem serializeU16_length (x : Nat) : (serializeU16 x).length = 2 := rfl

theorem serializeU32_length (x : Nat) : (serializeU32 x).length = 4 := rfl

theorem chppSerializeHeader_length (h : ChppTransportHeader) :
    (chppSerializeHeader h).length = 8 := rfl

theorem parse_serialize_u16 (x : Nat) : parseU16 (serializeU16 x) = x % 65536 := by
  simp only [serializeU16, parseU16, List.getD_cons_zero, List.getD_cons_succ]
  omega

theorem parse_serialize_u32 (x : Nat) :
    parseU32 (serializeU32 x) = x % 4294967296 := by
  simp only [serializeU32, parseU32, List.getD_cons_zero, List.getD_cons_succ]
  omega

/-- Header fields in their wire ranges. -/
def HeaderInRange (h : ChppTransportHeader) : Prop :=
  h.flags < 256 ∧ h.packetCode < 256 ∧ h.ackSeq < 256 ∧ h.seq < 256 ∧
    h.length < 65536 ∧ h.reserved < 65536

instance (h : ChppTransportHeader) : Decidable (HeaderInRange h) := by
  unfold HeaderInRange; infer_instance

theorem parse_serialize_header (h : ChppTransportHeader)
    (hr : HeaderInRange h) :
    chppParseHeader (chppSerializeHeader h) = h := by
  cases h
  obtain ⟨h1, h2, h3, h4, h5, h6⟩ := hr
  dsimp only at h1 h2 h3 h4 h5 h6
  simp only [chppSerializeHeader, chppParseHeader, serializeU16, parseU16,
    List.cons_append, List.nil_append, List.getD_cons_zero,
    List.getD_cons_succ, List.drop_succ_cons, List.drop_zero]
  simp only [ChppTransportHeader.mk.injEq]
  refine ⟨by omega, by omega, by omega, by omega, by omega, by omega⟩

/-! ## Receive state machine -/

/-- Modelled from the spec: the receive-side state of one transport
 instance.  transport.c, which implements the receive path, is not among
 the sources; the fields follow struct ChppRxStatus together with the
 rxHeader, rxFooter and rxDatagram members of struct ChppTransportState
 (transport.h lines 239-259 and 325-346).  The raw header and footer
 bytes of the packet being parsed are kept so the footer checksum can be
 verified over exactly the received bytes; delivered collects the
 datagrams handed to the application dispatch callback.
 packetCodeToSend is the error code of the next packet the transport
 will send out (ChppTxStatus.packetCodeToSend, transport.h line 275),
 through which checksum and ordering errors are reported. -/
@[ext]
structure RxMachine where
  state : ChppRxState
  locInState : Nat
  expectedSeq : Nat
  receivedPacketCode : Nat
  locInDatagram : Nat
  receivedAckSeq : Nat
  rxHeaderRaw : List Nat
  rxHeader : ChppTransportHeader
  rxFooterRaw : List Nat
  rxDatagram : List Nat
  delivered : List (List Nat)
  packetCodeToSend : Nat
deriving Repr, DecidableEq

/-- Modelled from the spec: discarding the packet being received, spec
 section 4.2 FOOTER ("the entire packet is discarded, including any
 partial payload contribution to the in-progress datagram, and the
 sequence counters are NOT advanced").  The payload bytes this packet
 contributed are removed from the reassembly buffer, the state machine
 returns to PREAMBLE, and the error is recorded as the code of the next
 outgoing packet (the NACK-equivalent response). -/
def chppRxAbortPacket (st : RxMachine) (err : Nat) : RxMachine :=
  { st with
    state := ChppRxState.preamble
    locInState := 0
    rxDatagram := st.rxDatagram.take (st.locInDatagram - st.rxHeader.length)
    locInDatagram := st.locInDatagram - st.rxHeader.length
    packetCodeToSend := err }

/-- Modelled from the spec: completion of the HEADER state once all
 eight header bytes are accumulated in raw (spec section 4.2 HEADER):
 the declared length is validated against the maximum transport payload
 size; an oversized length is a header error, reported via the error
 packet code path, and resets to PREAMBLE.  A zero length proceeds
 directly to FOOTER, otherwise to PAYLOAD. -/
def chppRxHeaderDone (mtu : Nat) (st : RxMachine) (raw : List Nat) :
    RxMachine :=
  let h := chppParseHeader raw
  if mtu < h.length then
    { st with
      state := ChppRxState.preamble
      locInState := 0
      rxHeaderRaw := raw
      rxHeader := h
      packetCodeToSend := CHPP_TRANSPORT_ERROR_HEADER }
  else if h.length = 0 then
    { st with
      state := ChppRxState.footer
      locInState := 0
      rxHeaderRaw := raw
      rxHeader := h
      rxFooterRaw := [] }
  else
    { st with
      state := ChppRxState.payload
      locInState := 0
      rxHeaderRaw := raw
      rxHeader := h }

/-- Modelled from the spec: completion of the FOOTER state once all four
 checksum bytes are accumulated in raw (spec section 4.2 FOOTER).  A
 checksum mismatch discards the packet with error code CHECKSUM; a
 checksum-valid but out-of-order payload-bearing packet is discarded
 with the distinct error code ORDER; otherwise receivedAckSeq is updated
 from the packet and, for a payload-bearing packet, expectedSeq becomes
 seq + 1 and a clear unfinished-datagram flag delivers the reassembled
 datagram to the application.  The sequence-number check applies only to
 payload-bearing packets since per spec section 3 the seq field is
 absent/ignored for zero-length packets. -/
def chppRxFooterDone (crc : List Nat → Nat) (st : RxMachine)
    (raw : List Nat) : RxMachine :=
  let packetPayload := st.rxDatagram.drop (st.locInDatagram - st.rxHeader.length)
  let body := chppPreambleBytes ++ st.rxHeaderRaw ++ packetPayload
  if parseU32 raw ≠ crc body % 4294967296 then
    chppRxAbortPacket { st with rxFooterRaw := raw }
      CHPP_TRANSPORT_ERROR_CHECKSUM
  else if 0 < st.rxHeader.length ∧ st.rxHeader.seq ≠ st.expectedSeq then
    chppRxAbortPacket { st with rxFooterRaw := raw }
      CHPP_TRANSPORT_ERROR_ORDER
  else
    let st1 :=
      { st with
        rxFooterRaw := raw
        state := ChppRxState.preamble
        locInState := 0
        receivedAckSeq := st.rxHeader.ackSeq
        receivedPacketCode := st.rxHeader.packetCode }
    if st.rxHeader.length = 0 then st1
    else
      let st2 := { st1 with expectedSeq := (st.rxHeader.seq + 1) % 256 }
      if st.rxHeader.flags % 2 = 1 then st2
      else
        { st2 with
          delivered := st2.delivered ++ [st2.rxDatagram]
          rxDatagram := []
          locInDatagram := 0 }

/-- Modelled from the spec: per-byte transition of the receive state
 machine of spec section 4.2 (PREAMBLE, HEADER, PAYLOAD, FOOTER), with
 transport.c absent from the sources.  The machine is parameterized by
 the checksum function crc (spec section 4.1, algorithm
 implementation-defined) and by the maximum transport payload size mtu.
 In the FOOTER state, a checksum mismatch discards the packet with error
 code CHECKSUM; a checksum-valid but out-of-order payload-bearing packet
 (seq not equal to expectedSeq) is discarded with the distinct error
 code ORDER; otherwise receivedAckSeq is updated from the packet, and
 for a payload-bearing packet expectedSeq becomes seq + 1 and a packet
 with the unfinished-datagram flag clear delivers the reassembled
 datagram to the application.  The sequence-number check applies only to
 payload-bearing packets since per spec section 3 the seq field is
 absent/ignored for zero-length packets. -/
def chppRxStep (crc : List Nat → Nat) (mtu : Nat) (st : RxMachine)
    (b : Nat) : RxMachine :=
  if st.state = ChppRxState.preamble then
      if st.locInState = 0 then
        if b = CHPP_PREAMBLE_BYTE_FIRST then { st with locInState := 1 }
        else { st with locInState := 0 }
      else
        if b = CHPP_PREAMBLE_BYTE_SECOND then
          { st with
            state := ChppRxState.header
            locInState := 0
            rxHeaderRaw := [] }
        else { st with locInState := 0 }
  else if st.state = ChppRxState.header then
      let raw := st.rxHeaderRaw ++ [b]
      if raw.length < 8 then
        { st with rxHeaderRaw := raw, locInState := raw.length }
      else
        chppRxHeaderDone mtu st raw
  else if st.state = ChppRxState.payload then
      if st.locInState + 1 < st.rxHeader.length then
        { st with
          rxDatagram := st.rxDatagram ++ [b]
          locInDatagram := st.locInDatagram + 1
          locInState := st.locInState + 1 }
      else
        { st with
          rxDatagram := st.rxDatagram ++ [b]
          locInDatagram := st.locInDatagram + 1
          state := ChppRxState.footer
          locInState := 0
          rxFooterRaw := [] }
  else
      let raw := st.rxFooterRaw ++ [b]
      if raw.length < 4 then
        { st with rxFooterRaw := raw, locInState := raw.length }
      else
        chppRxFooterDone crc st raw

/-- Runs the receive state machine over a byte buffer. -/
def chppRxRun (crc : List Nat → Nat) (mtu : Nat) (st : RxMachine)
    (buf : List Nat) : RxMachine :=
  buf.foldl (chppRxStep crc mtu) st

/-- Modelled from the spec: chppRxDataCb (transport.h lines 381-400,
 implementation absent) processes all incoming data on the serial port
 based on the Rx state and returns true to inform the serial port
 driver that the transport is waiting for a preamble, so that the driver
 may filter incoming zeros. -/
def chppRxDataCb (crc : List Nat → Nat) (mtu : Nat) (st : RxMachine)
    (buf : List Nat) : RxMachine × Bool :=
  let st' := chppRxRun crc mtu st buf
  (st', decide (st'.state = ChppRxState.preamble))

/-- A freshly initialized receive machine expecting sequence number s. -/
def chppInitRxMachine (s : Nat) : RxMachine :=
  { state := ChppRxState.preamble
    locInState := 0
    expectedSeq := s % 256
    receivedPacketCode := 0
    locInDatagram := 0
    receivedAckSeq := 0
    rxHeaderRaw := []
    rxHeader := { flags := 0, packetCode := 0, ackSeq := 0, seq := 0,
                  length := 0, reserved := 0 }
    rxFooterRaw := []
    rxDatagram := []
    delivered := []
    packetCodeToSend := 0 }

/-- The receive machine is between packets: scanning for a preamble from
 its first byte, with the reassembly offset matching the buffer. -/
def RxReady (st : RxMachine) : Prop :=
  st.state = ChppRxState.preamble ∧ st.locInState = 0 ∧
    st.locInDatagram = st.rxDatagram.length

instance (st : RxMachine) : Decidable (RxReady st) := by
  unfold RxReady; infer_instance

theorem chppRxRun_append (crc : List Nat → Nat) (mtu : Nat)
    (st : RxMachine) (a b : List Nat) :
    chppRxRun crc mtu st (a ++ b) = chppRxRun crc mtu (chppRxRun crc mtu st a) b := by
  simp [chppRxRun, List.foldl_append]

theorem chppRxRun_nil (crc : List Nat → Nat) (mtu : Nat) (st : RxMachine) :
    chppRxRun crc mtu st [] = st := rfl

theorem preamble_byte_first_eq : CHPP_PREAMBLE_BYTE_FIRST = 0x68 := by decide

theorem preamble_byte_second_eq : CHPP_PREAMBLE_BYTE_SECOND = 0x43 := by decide

/-! ### Stage lemmas for processing one frame -/

theorem chppRxRun_preamble (crc : List Nat → Nat) (mtu : Nat)
    (st : RxMachine) (hst : st.state = ChppRxState.preamble)
    (hloc : st.locInState = 0) :
    chppRxRun crc mtu st chppPreambleBytes =
      { st with
        state := ChppRxState.header
        locInState := 0
        rxHeaderRaw := [] } := by
  simp [chppPreambleBytes, chppRxRun, chppRxStep, hst, hloc]

theorem chppRxHeaderDone_scratch (mtu : Nat) (st : RxMachine) (x : List Nat)
    (n : Nat) (raw : List Nat) :
    chppRxHeaderDone mtu { st with rxHeaderRaw := x, locInState := n } raw =
      chppRxHeaderDone mtu st raw := by
  simp only [chppRxHeaderDone]

theorem chppRxFooterDone_scratch (crc : List Nat → Nat) (st : RxMachine)
    (x : List Nat) (n : Nat) (raw : List Nat) :
    chppRxFooterDone crc { st with rxFooterRaw := x, locInState := n } raw =
      chppRxFooterDone crc st raw := by
  simp only [chppRxFooterDone, chppRxAbortPacket]

theorem chppRxRun_header_bytes (crc : List Nat → Nat) (mtu : Nat) :
    ∀ (bs : List Nat) (st : RxMachine),
      st.state = ChppRxState.header →
      st.rxHeaderRaw.length + bs.length = 8 → bs ≠ [] →
      chppRxRun crc mtu st bs = chppRxHeaderDone mtu st (st.rxHeaderRaw ++ bs) := by
  intro bs
  induction bs with
  | nil => intro st _ _ hne; exact absurd rfl hne
  | cons b bs ih =>
    intro st hst hlen _
    by_cases hbs : bs = []
    · subst hbs
      have h7 : st.rxHeaderRaw.length = 7 := by
        simpa using hlen
      simp [chppRxRun, chppRxStep, hst, h7]
    · have hlt : st.rxHeaderRaw.length + 1 < 8 := by
        have : bs.length ≠ 0 := by simpa using hbs
        simp only [List.length_cons] at hlen
        omega
      have hstep : chppRxStep crc mtu st b =
          { st with
            rxHeaderRaw := st.rxHeaderRaw ++ [b]
            locInState := (st.rxHeaderRaw ++ [b]).length } := by
        simp [chppRxStep, hst, hlt]
      have hrun : chppRxRun crc mtu st (b :: bs) =
          chppRxRun crc mtu (chppRxStep crc mtu st b) bs := by
        simp [chppRxRun]
      rw [hrun, hstep, ih]
      · rw [chppRxHeaderDone_scratch]
        simp
      · simp [hst]
      · simp only [List.length_cons] at hlen
        simp
        omega
      · exact hbs

theorem chppRxRun_payload_bytes (crc : List Nat → Nat) (mtu : Nat) :
    ∀ (p : List Nat) (st : RxMachine),
      st.state = ChppRxState.payload → p ≠ [] →
      st.locInState + p.length = st.rxHeader.length →
      chppRxRun crc mtu st p =
        { st with
          state := ChppRxState.footer
          locInState := 0
          rxFooterRaw := []
          rxDatagram := st.rxDatagram ++ p
          locInDatagram := st.locInDatagram + p.length } := by
  intro p
  induction p with
  | nil => intro st _ hne _; exact absurd rfl hne
  | cons b p ih =>
    intro st hst _ hlen
    by_cases hp : p = []
    · subst hp
      have hnlt : ¬ st.locInState + 1 < st.rxHeader.length := by
        simp only [List.length_cons, List.length_nil] at hlen
        omega
      simp [chppRxRun, chppRxStep, hst, hnlt]
    · have hlt : st.locInState + 1 < st.rxHeader.length := by
        have : p.length ≠ 0 := by simpa using hp
        simp only [List.length_cons] at hlen
        omega
      have hstep : chppRxStep crc mtu st b =
          { st with
            rxDatagram := st.rxDatagram ++ [b]
            locInDatagram := st.locInDatagram + 1
            locInState := st.locInState + 1 } := by
        simp [chppRxStep, hst, hlt]
      have hrun : chppRxRun crc mtu st (b :: p) =
          chppRxRun crc mtu (chppRxStep crc mtu st b) p := by
        simp [chppRxRun]
      rw [hrun, hstep, ih]
      · ext
        all_goals simp
        all_goals omega
      · simp [hst]
      · exact hp
      · simp only [List.length_cons] at hlen
        simp
        omega

theorem chppRxRun_footer_bytes (crc : List Nat → Nat) (mtu : Nat) :
    ∀ (bs : List Nat) (st : RxMachine),
      st.state = ChppRxState.footer →
      st.rxFooterRaw.length + bs.length = 4 → bs ≠ [] →
      chppRxRun crc mtu st bs = chppRxFooterDone crc st (st.rxFooterRaw ++ bs) := by
  intro bs
  induction bs with
  | nil => intro st _ _ hne; exact absurd rfl hne
  | cons b bs ih =>
    intro st hst hlen _
    by_cases hbs : bs = []
    · subst hbs
      have h3 : st.rxFooterRaw.length = 3 := by
        simpa using hlen
      simp [chppRxRun, chppRxStep, hst, h3]
    · have hlt : st.rxFooterRaw.length + 1 < 4 := by
        have : bs.length ≠ 0 := by simpa using hbs
        simp only [List.length_cons] at hlen
        omega
      have hstep : chppRxStep crc mtu st b =
          { st with
            rxFooterRaw := st.rxFooterRaw ++ [b]
            locInState := (st.rxFooterRaw ++ [b]).length } := by
        simp [chppRxStep, hst, hlt]
      have hrun : chppRxRun crc mtu st (b :: bs) =
          chppRxRun crc mtu (chppRxStep crc mtu st b) bs := by
        simp [chppRxRun]
      rw [hrun, hstep, ih]
      · rw [chppRxFooterDone_scratch]
        simp
      · simp [hst]
      · simp only [List.length_cons] at hlen
        simp
        omega
      · exact hbs

/-! ### Processing a complete well-formed frame -/

theorem chppRxRun_frame_to_footer (crc : List Nat → Nat) (mtu : Nat)
    (st : RxMachine) (h : ChppTransportHeader) (p : List Nat)
    (hready : RxReady st) (hr : HeaderInRange h)
    (hlen : p.length = h.length) (hmtu : h.length ≤ mtu)
    (hpos : 0 < h.length) :
    chppRxRun crc mtu st (chppEncodePacket crc h p) =
      chppRxFooterDone crc
        { st with
          state := ChppRxState.footer
          locInState := 0
          rxHeaderRaw := chppSerializeHeader h
          rxHeader := h
          rxFooterRaw := []
          rxDatagram := st.rxDatagram ++ p
          locInDatagram := st.locInDatagram + p.length }
        (serializeU32 (crc (chppPreambleBytes ++ chppSerializeHeader h ++ p))) := by
  obtain ⟨hst, hloc, hinv⟩ := hready
  rw [chppEncodePacket]
  rw [show chppPreambleBytes ++ chppSerializeHeader h ++ p ++
        serializeU32 (crc (chppPreambleBytes ++ chppSerializeHeader h ++ p)) =
      chppPreambleBytes ++ (chppSerializeHeader h ++ (p ++
        serializeU32 (crc (chppPreambleBytes ++ chppSerializeHeader h ++ p))))
    from by simp [List.append_assoc]]
  rw [chppRxRun_append, chppRxRun_append, chppRxRun_append]
  rw [chppRxRun_preamble crc mtu st hst hloc]
  rw [chppRxRun_header_bytes crc mtu (chppSerializeHeader h) _ rfl
    (by simp [chppSerializeHeader_length]) (by simp [chppSerializeHeader])]
  simp only [List.nil_append]
  rw [chppRxHeaderDone]
  rw [parse_serialize_header h hr]
  simp only [Nat.not_lt.mpr hmtu, if_false, Nat.pos_iff_ne_zero.mp hpos,
    if_neg (Nat.pos_iff_ne_zero.mp hpos)]
  rw [chppRxRun_payload_bytes crc mtu p _ rfl
    (by intro he; rw [he] at hlen; simp at hlen; omega) (by simpa using hlen.symm ▸ rfl)]
  rw [chppRxRun_footer_bytes crc mtu _ _ rfl (by simp [serializeU32_length])
    (by simp [serializeU32])]
  simp only [List.nil_append]

theorem chppRxRun_good_frame_unfinished (crc : List Nat → Nat) (mtu : Nat)
    (st : RxMachine) (h : ChppTransportHeader) (p : List Nat)
    (hready : RxReady st) (hr : HeaderInRange h)
    (hlen : p.length = h.length) (hmtu : h.length ≤ mtu)
    (hpos : 0 < h.length) (hseq : h.seq = st.expectedSeq)
    (hflag : h.flags % 2 = 1) :
    chppRxRun crc mtu st (chppEncodePacket crc h p) =
      { st with
        state := ChppRxState.preamble
        locInState := 0
        expectedSeq := (h.seq + 1) % 256
        receivedPacketCode := h.packetCode
        receivedAckSeq := h.ackSeq
        rxHeaderRaw := chppSerializeHeader h
        rxHeader := h
        rxFooterRaw := serializeU32
          (crc (chppPreambleBytes ++ chppSerializeHeader h ++ p))
        rxDatagram := st.rxDatagram ++ p
        locInDatagram := st.locInDatagram + p.length } := by
  rw [chppRxRun_frame_to_footer crc mtu st h p hready hr hlen hmtu hpos]
  obtain ⟨hst, hloc, hinv⟩ := hready
  simp [chppRxFooterDone, parse_serialize_u32, hseq, hflag, hinv, hlen,
    Nat.pos_iff_ne_zero.mp hpos]

theorem chppRxRun_good_frame_finished (crc : List Nat → Nat) (mtu : Nat)
    (st : RxMachine) (h : ChppTransportHeader) (p : List Nat)
    (hready : RxReady st) (hr : HeaderInRange h)
    (hlen : p.length = h.length) (hmtu : h.length ≤ mtu)
    (hpos : 0 < h.length) (hseq : h.seq = st.expectedSeq)
    (hflag : h.flags % 2 = 0) :
    chppRxRun crc mtu st (chppEncodePacket crc h p) =
      { st with
        state := ChppRxState.preamble
        locInState := 0
        expectedSeq := (h.seq + 1) % 256
        receivedPacketCode := h.packetCode
        receivedAckSeq := h.ackSeq
        rxHeaderRaw := chppSerializeHeader h
        rxHeader := h
        rxFooterRaw := serializeU32
          (crc (chppPreambleBytes ++ chppSerializeHeader h ++ p))
        rxDatagram := []
        locInDatagram := 0
        delivered := st.delivered ++ [st.rxDatagram ++ p] } := by
  rw [chppRxRun_frame_to_footer crc mtu st h p hready hr hlen hmtu hpos]
  obtain ⟨hst, hloc, hinv⟩ := hready
  simp [chppRxFooterDone, parse_serialize_u32, hseq, hflag, hinv, hlen,
    Nat.pos_iff_ne_zero.mp hpos]

theorem chppRxRun_order_frame (crc : List Nat → Nat) (mtu : Nat)
    (st : RxMachine) (h : ChppTransportHeader) (p : List Nat)
    (hready : RxReady st) (hr : HeaderInRange h)
    (hlen : p.length = h.length) (hmtu : h.length ≤ mtu)
    (hpos : 0 < h.length) (hseq : h.seq ≠ st.expectedSeq) :
    chppRxRun crc mtu st (chppEncodePacket crc h p) =
      { st with
        state := ChppRxState.preamble
        locInState := 0
        rxHeaderRaw := chppSerializeHeader h
        rxHeader := h
        rxFooterRaw := serializeU32
          (crc (chppPreambleBytes ++ chppSerializeHeader h ++ p))
        packetCodeToSend := CHPP_TRANSPORT_ERROR_ORDER } := by
  rw [chppRxRun_frame_to_footer crc mtu st h p hready hr hlen hmtu hpos]
  obtain ⟨hst, hloc, hinv⟩ := hready
  simp [chppRxFooterDone, chppRxAbortPacket, parse_serialize_u32, hseq,
    hinv, hlen, Nat.pos_iff_ne_zero.mp hpos]

theorem chppRxRun_zero_frame (crc : List Nat → Nat) (mtu : Nat)
    (st : RxMachine) (h : ChppTransportHeader)
    (hready : RxReady st) (hr : HeaderInRange h) (hzero : h.length = 0) :
    chppRxRun crc mtu st (chppEncodePacket crc h []) =
      { st with
        state := ChppRxState.preamble
        locInState := 0
        receivedPacketCode := h.packetCode
        receivedAckSeq := h.ackSeq
        rxHeaderRaw := chppSerializeHeader h
        rxHeader := h
        rxFooterRaw := serializeU32
          (crc (chppPreambleBytes ++ chppSerializeHeader h ++ [])) } := by
  obtain ⟨hst, hloc, hinv⟩ := hready
  rw [chppEncodePacket]
  rw [show chppPreambleBytes ++ chppSerializeHeader h ++ ([] : List Nat) ++
        serializeU32 (crc (chppPreambleBytes ++ chppSerializeHeader h ++ [])) =
      chppPreambleBytes ++ (chppSerializeHeader h ++
        serializeU32 (crc (chppPreambleBytes ++ chppSerializeHeader h ++ [])))
    from by simp [List.append_assoc]]
  rw [chppRxRun_append, chppRxRun_append]
  rw [chppRxRun_preamble crc mtu st hst hloc]
  rw [chppRxRun_header_bytes crc mtu (chppSerializeHeader h) _ rfl
    (by simp [chppSerializeHeader_length]) (by simp [chppSerializeHeader])]
  simp only [List.nil_append]
  rw [chppRxHeaderDone]
  rw [parse_serialize_header h hr]
  simp only [hzero, Nat.lt_irrefl, Nat.not_lt_zero, if_false, if_pos rfl,
    if_true]
  rw [chppRxRun_footer_bytes crc mtu _ _ rfl (by simp [serializeU32_length])
    (by simp [serializeU32])]
  simp only [List.nil_append]
  simp [chppRxFooterDone, parse_serialize_u32, hzero, hinv]

/-- A checksum-detectably corrupted version of a payload-bearing frame
 whose payload length field reads len: the frame boundaries (preamble
 and declared length) survive, but the checksum in the footer does not
 verify over the received bytes, so the packet is a hard per-packet
 failure (spec section 4.1). -/
def CorruptedFrame (crc : List Nat → Nat) (len : Nat) (bytes : List Nat) : Prop :=
  bytes.length = 14 + len ∧
  bytes.take 2 = chppPreambleBytes ∧
  (chppParseHeader ((bytes.drop 2).take 8)).length = len ∧
  parseU32 (bytes.drop (10 + len)) ≠ crc (bytes.take (10 + len)) % 4294967296

instance (crc : List Nat → Nat) (len : Nat) (bytes : List Nat) :
    Decidable (CorruptedFrame crc len bytes) := by
  unfold CorruptedFrame; infer_instance

theorem chppRxRun_corrupted_frame (crc : List Nat → Nat) (mtu : Nat)
    (st : RxMachine) (len : Nat) (bytes : List Nat)
    (hready : RxReady st) (hc : CorruptedFrame crc len bytes)
    (hmtu : len ≤ mtu) :
    chppRxRun crc mtu st bytes =
      { st with
        state := ChppRxState.preamble
        locInState := 0
        rxHeaderRaw := (bytes.drop 2).take 8
        rxHeader := chppParseHeader ((bytes.drop 2).take 8)
        rxFooterRaw := bytes.drop (10 + len)
        packetCodeToSend := CHPP_TRANSPORT_ERROR_CHECKSUM } := by
  obtain ⟨hst, hloc, hinv⟩ := hready
  obtain ⟨hblen, hpre, hhl, hcs⟩ := hc
  have hdec : bytes = bytes.take 2 ++ ((bytes.drop 2).take 8 ++
      ((bytes.drop 10).take len ++ bytes.drop (10 + len))) := by
    rw [show bytes.drop (10 + len) = (bytes.drop 10).drop len from by
      rw [List.drop_drop]]
    rw [List.take_append_drop, show bytes.drop 10 = (bytes.drop 2).drop 8 from by
      rw [List.drop_drop]]
    rw [List.take_append_drop, List.take_append_drop]
  have htake10 : bytes.take (10 + len) =
      chppPreambleBytes ++ ((bytes.drop 2).take 8 ++ (bytes.drop 10).take len) := by
    rw [show (10 : Nat) + len = 2 + (8 + len) from by ring, List.take_add,
      List.take_add, hpre]
    rw [show (bytes.drop 2).drop 8 = bytes.drop 10 from by rw [List.drop_drop]]
  have hlen8 : ((bytes.drop 2).take 8).length = 8 := by
    rw [List.length_take, List.length_drop, hblen]
    omega
  have hlenp : ((bytes.drop 10).take len).length = len := by
    rw [List.length_take, List.length_drop, hblen]
    omega
  have hlenf : (bytes.drop (10 + len)).length = 4 := by
    rw [List.length_drop, hblen]
    omega
  conv_lhs => rw [hdec]
  rw [hpre]
  rw [chppRxRun_append, chppRxRun_append, chppRxRun_append]
  rw [chppRxRun_preamble crc mtu st hst hloc]
  rw [chppRxRun_header_bytes crc mtu ((bytes.drop 2).take 8) _ rfl
    (by simp [hlen8]) (by intro hn; rw [hn] at hlen8; simp at hlen8)]
  simp only [List.nil_append]
  rw [chppRxHeaderDone]
  rw [hhl]
  simp only [Nat.not_lt.mpr hmtu, if_false]
  by_cases hzero : len = 0
  · subst hzero
    simp only [if_pos rfl, if_true]
    rw [show (bytes.drop 10).take 0 = ([] : List Nat) from List.take_zero _]
    rw [chppRxRun_nil]
    rw [chppRxRun_footer_bytes crc mtu _ _ rfl (by simpa using hlenf)
      (by intro hn; rw [hn] at hlenf; simp at hlenf)]
    try simp only [List.nil_append]
    rw [chppRxFooterDone]
    have hcs2 := hcs
    rw [htake10] at hcs2
    simp only [List.take_zero, List.append_nil, Nat.add_zero] at hcs2
    simp only [Nat.add_zero]
    simp only [hhl, Nat.sub_zero, hinv, List.drop_length, List.append_nil]
    rw [if_pos hcs2]
    simp [chppRxAbortPacket, hhl, hinv, List.take_length, Nat.sub_zero]
  · rw [if_neg hzero]
    rw [chppRxRun_payload_bytes crc mtu ((bytes.drop 10).take len) _ rfl
      (by intro hn; rw [hn] at hlenp; simp at hlenp; omega)
      (by simp [hlenp, hhl])]
    rw [chppRxRun_footer_bytes crc mtu _ _ rfl (by simpa using hlenf)
      (by intro hn; rw [hn] at hlenf; simp at hlenf)]
    simp only [List.nil_append]
    rw [chppRxFooterDone]
    simp only [hhl, hlenp]
    rw [show st.locInDatagram + len - len = st.rxDatagram.length from by
      rw [hinv]; omega]
    rw [List.drop_left]
    rw [if_pos (by rw [htake10] at hcs; simpa using hcs)]
    simp [chppRxAbortPacket, hhl, hinv, Nat.add_sub_cancel, List.take_left]

/-! ### ARQ: corrupted attempts, retransmissions, duplicates -/

/-- Per-packet link behaviour: the checksum-detectably corrupted
 deliveries preceding the successful delivery of the packet, and how
 many times the sender's retransmission of the already-accepted packet
 is delivered again afterwards (a retransmission triggered by a lost or
 delayed acknowledgment). -/
structure PacketAttempts where
  corrupts : List (List Nat)
  dupes : Nat
deriving Repr, DecidableEq

/-- The bytes the link delivers for one packet under a given attempt
 schedule: corrupted attempts, then the intact frame, then duplicate
 deliveries of the intact frame. -/
def chppAttemptStream (crc : List Nat → Nat) (h : ChppTransportHeader)
    (p : List Nat) (a : PacketAttempts) : List Nat :=
  a.corrupts.flatten ++ (chppEncodePacket crc h p ++
    (List.replicate a.dupes (chppEncodePacket crc h p)).flatten)

/-- The bytes the link delivers for a list of packets under a matching
 schedule of per-packet attempts. -/
def chppArqStream (crc : List Nat → Nat) :
    List (ChppTransportHeader × List Nat) → List PacketAttempts → List Nat
  | [], _ => []
  | _, [] => []
  | pkt :: ps, a :: as =>
      chppAttemptStream crc pkt.1 pkt.2 a ++ chppArqStream crc ps as

/-- Equality of the fields of the receive machine that carry protocol
 state across packets (as opposed to per-packet scratch fields). -/
def RxObsEq (s t : RxMachine) : Prop :=
  s.expectedSeq = t.expectedSeq ∧ s.locInDatagram = t.locInDatagram ∧
    s.rxDatagram = t.rxDatagram ∧ s.receivedAckSeq = t.receivedAckSeq ∧
    s.delivered = t.delivered

theorem chppRxRun_corrupts (crc : List Nat → Nat) (mtu : Nat) (len : Nat)
    (hmtu : len ≤ mtu) :
    ∀ (cs : List (List Nat)) (st : RxMachine),
      RxReady st → (∀ c ∈ cs, CorruptedFrame crc len c) →
      RxReady (chppRxRun crc mtu st cs.flatten) ∧
        RxObsEq (chppRxRun crc mtu st cs.flatten) st := by
  intro cs
  induction cs with
  | nil =>
    intro st hready _
    rw [show ([] : List (List Nat)).flatten = [] from rfl, chppRxRun_nil]
    exact ⟨hready, rfl, rfl, rfl, rfl, rfl⟩
  | cons c cs ih =>
    intro st hready hall
    rw [show (c :: cs).flatten = c ++ cs.flatten from rfl, chppRxRun_append]
    rw [chppRxRun_corrupted_frame crc mtu st len c hready (hall c (by simp)) hmtu]
    obtain ⟨hst, hloc, hinv⟩ := hready
    have hready1 : RxReady
        { st with
          state := ChppRxState.preamble
          locInState := 0
          rxHeaderRaw := (c.drop 2).take 8
          rxHeader := chppParseHeader ((c.drop 2).take 8)
          rxFooterRaw := c.drop (10 + len)
          packetCodeToSend := CHPP_TRANSPORT_ERROR_CHECKSUM } :=
      ⟨rfl, rfl, hinv⟩
    obtain ⟨hr2, ho2⟩ := ih _ hready1 (fun c hc => hall c (by simp [hc]))
    exact ⟨hr2, ho2⟩

theorem chppRxRun_dupes (crc : List Nat → Nat) (mtu : Nat)
    (h : ChppTransportHeader) (p : List Nat)
    (hr : HeaderInRange h) (hlen : p.length = h.length)
    (hmtu : h.length ≤ mtu) (hpos : 0 < h.length) :
    ∀ (n : Nat) (st : RxMachine),
      RxReady st → h.seq ≠ st.expectedSeq →
      RxReady (chppRxRun crc mtu st
          (List.replicate n (chppEncodePacket crc h p)).flatten) ∧
        RxObsEq (chppRxRun crc mtu st
          (List.replicate n (chppEncodePacket crc h p)).flatten) st := by
  intro n
  induction n with
  | zero =>
    intro st hready _
    rw [show (List.replicate 0 (chppEncodePacket crc h p)).flatten = [] from rfl,
      chppRxRun_nil]
    exact ⟨hready, rfl, rfl, rfl, rfl, rfl⟩
  | succ n ih =>
    intro st hready hseq
    rw [show (List.replicate (n + 1) (chppEncodePacket crc h p)).flatten =
        chppEncodePacket crc h p ++
          (List.replicate n (chppEncodePacket crc h p)).flatten from by
      simp [List.replicate_succ]]
    rw [chppRxRun_append]
    rw [chppRxRun_order_frame crc mtu st h p hready hr hlen hmtu hpos hseq]
    obtain ⟨hst, hloc, hinv⟩ := hready
    have hready1 : RxReady
        { st with
          state := ChppRxState.preamble
          locInState := 0
          rxHeaderRaw := chppSerializeHeader h
          rxHeader := h
          rxFooterRaw := serializeU32
            (crc (chppPreambleBytes ++ chppSerializeHeader h ++ p))
          packetCodeToSend := CHPP_TRANSPORT_ERROR_ORDER } :=
      ⟨rfl, rfl, hinv⟩
    obtain ⟨hr2, ho2⟩ := ih _ hready1 hseq
    exact ⟨hr2, ho2⟩

/-- Sequence numbers one apart are distinct modulo 256. -/
theorem seq_succ_ne (s : Nat) (hs : s < 256) : s ≠ (s + 1) % 256 := by
  by_cases h255 : s = 255
  · subst h255; decide
  · rw [Nat.mod_eq_of_lt (by omega)]
    omega

theorem chppRxRun_packet (crc : List Nat → Nat) (mtu : Nat)
    (st : RxMachine) (h : ChppTransportHeader) (p : List Nat)
    (a : PacketAttempts)
    (hready : RxReady st) (hr : HeaderInRange h)
    (hlen : p.length = h.length) (hmtu : h.length ≤ mtu)
    (hpos : 0 < h.length) (hseq : h.seq = st.expectedSeq)
    (hcorr : ∀ c ∈ a.corrupts, CorruptedFrame crc h.length c) :
    RxReady (chppRxRun crc mtu st (chppAttemptStream crc h p a)) ∧
    (chppRxRun crc mtu st (chppAttemptStream crc h p a)).expectedSeq =
      (h.seq + 1) % 256 ∧
    (chppRxRun crc mtu st (chppAttemptStream crc h p a)).receivedAckSeq =
      h.ackSeq ∧
    (h.flags % 2 = 1 →
      (chppRxRun crc mtu st (chppAttemptStream crc h p a)).rxDatagram =
          st.rxDatagram ++ p ∧
        (chppRxRun crc mtu st (chppAttemptStream crc h p a)).locInDatagram =
          st.locInDatagram + p.length ∧
        (chppRxRun crc mtu st (chppAttemptStream crc h p a)).delivered =
          st.delivered) ∧
    (h.flags % 2 = 0 →
      (chppRxRun crc mtu st (chppAttemptStream crc h p a)).rxDatagram = [] ∧
        (chppRxRun crc mtu st (chppAttemptStream crc h p a)).locInDatagram = 0 ∧
        (chppRxRun crc mtu st (chppAttemptStream crc h p a)).delivered =
          st.delivered ++ [st.rxDatagram ++ p]) := by
  rw [chppAttemptStream, chppRxRun_append, chppRxRun_append]
  obtain ⟨hrdy1, hobs1⟩ :=
    chppRxRun_corrupts crc mtu h.length hmtu a.corrupts st hready hcorr
  set st1 := chppRxRun crc mtu st a.corrupts.flatten with hst1
  obtain ⟨ho1, ho2, ho3, ho4, ho5⟩ := hobs1
  have hseq1 : h.seq = st1.expectedSeq := by rw [ho1, hseq]
  by_cases hflag : h.flags % 2 = 1
  · rw [chppRxRun_good_frame_unfinished crc mtu st1 h p hrdy1 hr hlen hmtu
      hpos hseq1 hflag]
    obtain ⟨hst1', hloc1', hinv1'⟩ := hrdy1
    have hready2 : RxReady
        { st1 with
          state := ChppRxState.preamble
          locInState := 0
          expectedSeq := (h.seq + 1) % 256
          receivedPacketCode := h.packetCode
          receivedAckSeq := h.ackSeq
          rxHeaderRaw := chppSerializeHeader h
          rxHeader := h
          rxFooterRaw := serializeU32
            (crc (chppPreambleBytes ++ chppSerializeHeader h ++ p))
          rxDatagram := st1.rxDatagram ++ p
          locInDatagram := st1.locInDatagram + p.length } := by
      refine ⟨rfl, rfl, ?_⟩
      simp [hinv1']
    obtain ⟨hrd, hd1, hd2, hd3, hd4, hd5⟩ :=
      chppRxRun_dupes crc mtu h p hr hlen hmtu hpos a.dupes _ hready2
        (by simpa using seq_succ_ne h.seq hr.2.2.2.1)
    refine ⟨hrd, ?_, ?_, fun _ => ⟨?_, ?_, ?_⟩, fun hf0 => absurd hflag (by omega)⟩
    · rw [hd1]
    · rw [hd4]
    · rw [hd3]; simp [ho3]
    · rw [hd2]; simp [ho2]
    · rw [hd5]; simp [ho5]
  · have hflag0 : h.flags % 2 = 0 := by omega
    rw [chppRxRun_good_frame_finished crc mtu st1 h p hrdy1 hr hlen hmtu
      hpos hseq1 hflag0]
    obtain ⟨hst1', hloc1', hinv1'⟩ := hrdy1
    have hready2 : RxReady
        { st1 with
          state := ChppRxState.preamble
          locInState := 0
          expectedSeq := (h.seq + 1) % 256
          receivedPacketCode := h.packetCode
          receivedAckSeq := h.ackSeq
          rxHeaderRaw := chppSerializeHeader h
          rxHeader := h
          rxFooterRaw := serializeU32
            (crc (chppPreambleBytes ++ chppSerializeHeader h ++ p))
          rxDatagram := []
          locInDatagram := 0
          delivered := st1.delivered ++ [st1.rxDatagram ++ p] } :=
      ⟨rfl, rfl, rfl⟩
    obtain ⟨hrd, hd1, hd2, hd3, hd4, hd5⟩ :=
      chppRxRun_dupes crc mtu h p hr hlen hmtu hpos a.dupes _ hready2
        (by simpa using seq_succ_ne h.seq hr.2.2.2.1)
    refine ⟨hrd, ?_, ?_, fun hf1 => absurd hf1 hflag, fun _ => ⟨?_, ?_, ?_⟩⟩
    · rw [hd1]
    · rw [hd4]
    · rw [hd3]
    · rw [hd2]
    · rw [hd5]; simp [ho3, ho5]

/-! ### Fragmentation of datagrams into packets (Transmit Engine) -/

/-- Fuel-bounded splitting of a byte list into chunks of at most mtu
 bytes; the fuel bounds the recursion and chppFragmentBytes supplies
 the list length as fuel. -/
def fragmentGo (mtu : Nat) : Nat → List Nat → List (List Nat)
  | 0, _ => []
  | _ + 1, [] => []
  | fuel + 1, l => l.take mtu :: fragmentGo mtu fuel (l.drop mtu)

/-- Modelled from the spec: splitting a datagram's bytes into successive
 packet payloads of at most MTU bytes each (spec section 4.3: when
 packetizing, take up to MTU unsent bytes from the head-of-queue
 datagram starting at the sent location). -/
def chppFragmentBytes (mtu : Nat) (l : List Nat) : List (List Nat) :=
  fragmentGo mtu l.length l

theorem fragmentGo_congr (mtu : Nat) (hmtu : 0 < mtu) :
    ∀ (f1 : Nat) (f2 : Nat) (l : List Nat), l.length ≤ f1 → l.length ≤ f2 →
      fragmentGo mtu f1 l = fragmentGo mtu f2 l := by
  intro f1
  induction f1 with
  | zero =>
    intro f2 l h1 _
    have hl : l = [] := List.length_eq_zero.mp (by omega)
    subst hl
    cases f2 <;> rfl
  | succ f1 ih =>
    intro f2 l h1 h2
    cases l with
    | nil => cases f2 <;> rfl
    | cons x l' =>
      cases f2 with
      | zero => simp at h2
      | succ f2' =>
        show (x :: l').take mtu :: fragmentGo mtu f1 ((x :: l').drop mtu) =
          (x :: l').take mtu :: fragmentGo mtu f2' ((x :: l').drop mtu)
        congr 1
        apply ih
        · rw [List.length_drop]
          simp only [List.length_cons] at h1 ⊢
          omega
        · rw [List.length_drop]
          simp only [List.length_cons] at h2 ⊢
          omega

theorem chppFragmentBytes_nil (mtu : Nat) : chppFragmentBytes mtu [] = [] := rfl

theorem chppFragmentBytes_cons (mtu : Nat) (hmtu : 0 < mtu) (l : List Nat)
    (hl : l ≠ []) :
    chppFragmentBytes mtu l =
      l.take mtu :: chppFragmentBytes mtu (l.drop mtu) := by
  obtain ⟨x, l', rfl⟩ := List.exists_cons_of_ne_nil hl
  show fragmentGo mtu (x :: l').length (x :: l') = _
  rw [show (x :: l').length = l'.length + 1 from rfl]
  show (x :: l').take mtu :: fragmentGo mtu l'.length ((x :: l').drop mtu) = _
  congr 1
  apply fragmentGo_congr mtu hmtu
  · rw [List.length_drop]
    simp only [List.length_cons]
    omega
  · exact Nat.le_refl _

theorem chppFragmentBytes_flatten (mtu : Nat) (hmtu : 0 < mtu) (l : List Nat) :
    (chppFragmentBytes mtu l).flatten = l := by
  have key : ∀ (n : Nat) (l : List Nat), l.length ≤ n →
      (chppFragmentBytes mtu l).flatten = l := by
    intro n
    induction n with
    | zero =>
      intro l h1
      have hl : l = [] := List.length_eq_zero.mp (by omega)
      subst hl
      rfl
    | succ n ih =>
      intro l h1
      by_cases hl : l = []
      · subst hl; rfl
      · rw [chppFragmentBytes_cons mtu hmtu l hl]
        rw [List.flatten_cons]
        rw [ih (l.drop mtu) (by rw [List.length_drop]; omega)]
        exact List.take_append_drop mtu l
  exact key l.length l (Nat.le_refl _)

theorem chppFragmentBytes_mem (mtu : Nat) (hmtu : 0 < mtu) (l : List Nat) :
    ∀ c ∈ chppFragmentBytes mtu l, c ≠ [] ∧ c.length ≤ mtu := by
  have key : ∀ (n : Nat) (l : List Nat), l.length ≤ n →
      ∀ c ∈ chppFragmentBytes mtu l, c ≠ [] ∧ c.length ≤ mtu := by
    intro n
    induction n with
    | zero =>
      intro l h1 c hc
      have hl : l = [] := List.length_eq_zero.mp (by omega)
      subst hl
      simp [chppFragmentBytes_nil] at hc
    | succ n ih =>
      intro l h1 c hc
      by_cases hl : l = []
      · subst hl; simp [chppFragmentBytes_nil] at hc
      · rw [chppFragmentBytes_cons mtu hmtu l hl] at hc
        rcases List.mem_cons.mp hc with hc1 | hc2
        · subst hc1
          constructor
          · intro hn
            have := congrArg List.length hn
            rw [List.length_take] at this
            simp at this
            rcases this with h | h
            · omega
            · exact hl h
          · rw [List.length_take]
            omega
        · exact ih (l.drop mtu) (by rw [List.length_drop]; omega) c hc2
  exact key l.length l (Nat.le_refl _)

/-- Modelled from the spec: the headers and payloads of the packets that
 carry one datagram's successive fragments, starting at running
 transmit sequence number s (the header carries it modulo 256) and
 acknowledging ackSeq a (spec section 4.3): the unfinished-datagram
 flag is set on every fragment except the last, the sequence number
 increments by one per payload-bearing packet, and the length field is
 the fragment's payload length. -/
def chppPacketsOfChunks (a : Nat) : Nat → List (List Nat) →
    List (ChppTransportHeader × List Nat)
  | _, [] => []
  | s, [c] =>
      [({ flags := CHPP_TRANSPORT_FLAG_FINISHED_DATAGRAM
          packetCode := 0
          ackSeq := a % 256
          seq := s % 256
          length := c.length
          reserved := 0 }, c)]
  | s, c :: c' :: rest =>
      ({ flags := CHPP_TRANSPORT_FLAG_UNFINISHED_DATAGRAM
         packetCode := 0
         ackSeq := a % 256
         seq := s % 256
         length := c.length
         reserved := 0 }, c) :: chppPacketsOfChunks a (s + 1) (c' :: rest)

/-- Modelled from the spec: the packets of one datagram. -/
def chppPacketizeDatagram (mtu s a : Nat) (d : List Nat) :
    List (ChppTransportHeader × List Nat) :=
  chppPacketsOfChunks a s (chppFragmentBytes mtu d)

/-- Modelled from the spec: the packets of a queue of datagrams, sent in
 FIFO order with a continuing transmit sequence counter. -/
def chppTxPackets (mtu a : Nat) : Nat → List (List Nat) →
    List (ChppTransportHeader × List Nat)
  | _, [] => []
  | s, d :: ds =>
      chppPacketizeDatagram mtu s a d ++
        chppTxPackets mtu a (s + (chppFragmentBytes mtu d).length) ds

theorem chppPacketsOfChunks_length (a : Nat) :
    ∀ (s : Nat) (chunks : List (List Nat)),
      (chppPacketsOfChunks a s chunks).length = chunks.length := by
  intro s chunks
  induction chunks generalizing s with
  | nil => rfl
  | cons c rest ih =>
    cases rest with
    | nil => rfl
    | cons c' rest' =>
      have hunf : chppPacketsOfChunks a s (c :: c' :: rest') =
          ({ flags := CHPP_TRANSPORT_FLAG_UNFINISHED_DATAGRAM
             packetCode := 0
             ackSeq := a % 256
             seq := s % 256
             length := c.length
             reserved := 0 }, c) ::
            chppPacketsOfChunks a (s + 1) (c' :: rest') := rfl
      rw [hunf, List.length_cons, ih (s + 1)]
      simp

theorem chppRxRun_chunks (crc : List Nat → Nat) (mtu a : Nat)
    (hmtu16 : mtu < 65536) :
    ∀ (chunks : List (List Nat)) (s : Nat) (sched : List PacketAttempts)
      (st : RxMachine),
      chunks ≠ [] → RxReady st → st.expectedSeq = s % 256 →
      (∀ c ∈ chunks, c ≠ [] ∧ c.length ≤ mtu) →
      sched.length = chunks.length →
      (∀ pr ∈ List.zip (chppPacketsOfChunks a s chunks) sched,
        ∀ cb ∈ pr.2.corrupts, CorruptedFrame crc pr.1.1.length cb) →
      ∀ st', st' = chppRxRun crc mtu st
          (chppArqStream crc (chppPacketsOfChunks a s chunks) sched) →
        RxReady st' ∧ st'.expectedSeq = (s + chunks.length) % 256 ∧
          st'.rxDatagram = [] ∧ st'.locInDatagram = 0 ∧
          st'.delivered = st.delivered ++ [st.rxDatagram ++ chunks.flatten] := by
  intro chunks
  induction chunks with
  | nil => intro s sched st hne; exact absurd rfl hne
  | cons c rest ih =>
    intro s sched st _ hready hexp hmem hslen hcorr st' hst'
    cases sched with
    | nil => simp at hslen
    | cons a1 sched' =>
      cases rest with
      | nil =>
        have hs' : sched' = [] := by
          simp only [List.length_cons, List.length_nil] at hslen
          exact List.length_eq_zero.mp (by omega)
        subst hs'
        have hstream : chppArqStream crc (chppPacketsOfChunks a s [c]) [a1] =
            chppAttemptStream crc
              { flags := CHPP_TRANSPORT_FLAG_FINISHED_DATAGRAM
                packetCode := 0
                ackSeq := a % 256
                seq := s % 256
                length := c.length
                reserved := 0 } c a1 ++ [] := rfl
        rw [hstream, List.append_nil] at hst'
        obtain ⟨hcne, hcle⟩ := hmem c (by simp)
        have hr : HeaderInRange
            { flags := CHPP_TRANSPORT_FLAG_FINISHED_DATAGRAM
              packetCode := 0
              ackSeq := a % 256
              seq := s % 256
              length := c.length
              reserved := 0 } := by
          refine ⟨by norm_num [CHPP_TRANSPORT_FLAG_FINISHED_DATAGRAM],
            by norm_num, Nat.mod_lt a (by norm_num),
            Nat.mod_lt s (by norm_num),
            (by show c.length < 65536; omega), by norm_num⟩
        obtain ⟨hrd, he, _, _, hfin⟩ :=
          chppRxRun_packet crc mtu st _ c a1 hready hr rfl hcle
            (List.length_pos.mpr hcne) hexp.symm
            (by
              intro cb hcb
              have hm : (({ flags := CHPP_TRANSPORT_FLAG_FINISHED_DATAGRAM, packetCode := 0, ackSeq := a % 256, seq := s % 256, length := c.length, reserved := 0 }, c), a1) ∈ List.zip (chppPacketsOfChunks a s [c]) [a1] := by
                rw [show chppPacketsOfChunks a s [c] = [({ flags := CHPP_TRANSPORT_FLAG_FINISHED_DATAGRAM, packetCode := 0, ackSeq := a % 256, seq := s % 256, length := c.length, reserved := 0 }, c)] from rfl]
                rw [List.zip_cons_cons]
                simp
              exact hcorr _ hm cb hcb)
        obtain ⟨hq1, hq2, hq3⟩ := hfin (by
          norm_num [CHPP_TRANSPORT_FLAG_FINISHED_DATAGRAM])
        subst hst'
        refine ⟨hrd, ?_, hq1, hq2, ?_⟩
        · rw [he]
          simp only [List.length_cons, List.length_nil]
          omega
        · rw [hq3]
          simp
      | cons c' rest' =>
        have hunf : chppPacketsOfChunks a s (c :: c' :: rest') =
            ({ flags := CHPP_TRANSPORT_FLAG_UNFINISHED_DATAGRAM
               packetCode := 0
               ackSeq := a % 256
               seq := s % 256
               length := c.length
               reserved := 0 }, c) ::
              chppPacketsOfChunks a (s + 1) (c' :: rest') := rfl
        have hstream : chppArqStream crc
            (chppPacketsOfChunks a s (c :: c' :: rest')) (a1 :: sched') =
            chppAttemptStream crc
              { flags := CHPP_TRANSPORT_FLAG_UNFINISHED_DATAGRAM
                packetCode := 0
                ackSeq := a % 256
                seq := s % 256
                length := c.length
                reserved := 0 } c a1 ++
              chppArqStream crc (chppPacketsOfChunks a (s + 1) (c' :: rest'))
                sched' := rfl
        rw [hstream, chppRxRun_append] at hst'
        obtain ⟨hcne, hcle⟩ := hmem c (by simp)
        have hr : HeaderInRange
            { flags := CHPP_TRANSPORT_FLAG_UNFINISHED_DATAGRAM
              packetCode := 0
              ackSeq := a % 256
              seq := s % 256
              length := c.length
              reserved := 0 } := by
          refine ⟨by norm_num [CHPP_TRANSPORT_FLAG_UNFINISHED_DATAGRAM],
            by norm_num, Nat.mod_lt a (by norm_num),
            Nat.mod_lt s (by norm_num),
            (by show c.length < 65536; omega), by norm_num⟩
        obtain ⟨hrd, he, _, hunfin, _⟩ :=
          chppRxRun_packet crc mtu st _ c a1 hready hr rfl hcle
            (List.length_pos.mpr hcne) hexp.symm
            (by
              intro cb hcb
              have hm : (({ flags := CHPP_TRANSPORT_FLAG_UNFINISHED_DATAGRAM, packetCode := 0, ackSeq := a % 256, seq := s % 256, length := c.length, reserved := 0 }, c), a1) ∈ List.zip (chppPacketsOfChunks a s (c :: c' :: rest')) (a1 :: sched') := by
                rw [hunf, List.zip_cons_cons]
                simp
              exact hcorr _ hm cb hcb)
        obtain ⟨hq1, hq2, hq3⟩ := hunfin (by
          norm_num [CHPP_TRANSPORT_FLAG_UNFINISHED_DATAGRAM])
        obtain ⟨hrd2, he2, hdg2, hloc2, hdel2⟩ :=
          ih (s + 1) sched' _ (by simp) hrd
            (by
              rw [he]
              show (s % 256 + 1) % 256 = (s + 1) % 256
              omega)
            (fun cx hcx => hmem cx (by simp [hcx]))
            (by simpa using hslen)
            (by
              intro pr hpr cb hcb
              refine hcorr pr ?_ cb hcb
              rw [hunf, List.zip_cons_cons]
              exact List.mem_cons_of_mem _ hpr)
            st' hst'
        refine ⟨hrd2, ?_, hdg2, hloc2, ?_⟩
        · rw [he2]
          simp only [List.length_cons]
          omega
        · rw [hdel2, hq3, hq1]
          simp [List.append_assoc]

theorem chppArqStream_append (crc : List Nat → Nat) :
    ∀ (ps1 ps2 : List (ChppTransportHeader × List Nat))
      (s1 s2 : List PacketAttempts), s1.length = ps1.length →
      chppArqStream crc (ps1 ++ ps2) (s1 ++ s2) =
        chppArqStream crc ps1 s1 ++ chppArqStream crc ps2 s2 := by
  intro ps1
  induction ps1 with
  | nil =>
    intro ps2 s1 s2 h
    have hs : s1 = [] := List.length_eq_zero.mp (by simpa using h)
    subst hs
    rfl
  | cons p ps ih =>
    intro ps2 s1 s2 h
    cases s1 with
    | nil => simp at h
    | cons a1 s1' =>
      show chppAttemptStream crc p.1 p.2 a1 ++
          chppArqStream crc (ps ++ ps2) (s1' ++ s2) = _
      rw [ih ps2 s1' s2 (by simpa using h)]
      show _ = chppAttemptStream crc p.1 p.2 a1 ++
          chppArqStream crc ps s1' ++ chppArqStream crc ps2 s2
      rw [List.append_assoc]

theorem chppRxRun_datagrams (crc : List Nat → Nat) (mtu a : Nat)
    (hmtu : 0 < mtu) (hmtu16 : mtu < 65536) :
    ∀ (ds : List (List Nat)) (s : Nat) (sched : List PacketAttempts)
      (st : RxMachine),
      RxReady st → st.rxDatagram = [] → st.expectedSeq = s % 256 →
      (∀ d ∈ ds, d ≠ []) →
      sched.length = (chppTxPackets mtu a s ds).length →
      (∀ pr ∈ List.zip (chppTxPackets mtu a s ds) sched,
        ∀ cb ∈ pr.2.corrupts, CorruptedFrame crc pr.1.1.length cb) →
      ∀ st', st' = chppRxRun crc mtu st
          (chppArqStream crc (chppTxPackets mtu a s ds) sched) →
        RxReady st' ∧ st'.rxDatagram = [] ∧
          st'.expectedSeq = (s + (chppTxPackets mtu a s ds).length) % 256 ∧
          st'.delivered = st.delivered ++ ds := by
  intro ds
  induction ds with
  | nil =>
    intro s sched st hready hnil hexp _ _ _ st' hst'
    have hTx : chppTxPackets mtu a s [] = [] := rfl
    rw [hTx] at hst' ⊢
    have : chppArqStream crc [] sched = [] := by cases sched <;> rfl
    rw [this, chppRxRun_nil] at hst'
    subst hst'
    exact ⟨hready, hnil, by simpa using hexp, by simp⟩
  | cons d ds ih =>
    intro s sched st hready hnil hexp hne hslen hcorr st' hst'
    have hdne : d ≠ [] := hne d (by simp)
    have hchne : chppFragmentBytes mtu d ≠ [] := by
      rw [chppFragmentBytes_cons mtu hmtu d hdne]
      simp
    have hTx : chppTxPackets mtu a s (d :: ds) =
        chppPacketizeDatagram mtu s a d ++
          chppTxPackets mtu a (s + (chppFragmentBytes mtu d).length) ds := rfl
    have hPk : (chppPacketizeDatagram mtu s a d).length =
        (chppFragmentBytes mtu d).length :=
      chppPacketsOfChunks_length a s (chppFragmentBytes mtu d)
    have hslen' : (chppFragmentBytes mtu d).length ≤ sched.length := by
      rw [hslen, hTx, List.length_append, hPk]
      omega
    have hs1len : (sched.take (chppFragmentBytes mtu d).length).length =
        (chppPacketizeDatagram mtu s a d).length := by
      rw [List.length_take, hPk]
      omega
    have hzip : List.zip (chppTxPackets mtu a s (d :: ds)) sched =
        List.zip (chppPacketizeDatagram mtu s a d)
            (sched.take (chppFragmentBytes mtu d).length) ++
          List.zip (chppTxPackets mtu a
              (s + (chppFragmentBytes mtu d).length) ds)
            (sched.drop (chppFragmentBytes mtu d).length) := by
      conv_lhs =>
        rw [hTx, ← List.take_append_drop (chppFragmentBytes mtu d).length sched]
      rw [List.zip_append hs1len.symm]
    rw [hTx, ← List.take_append_drop (chppFragmentBytes mtu d).length sched,
      chppArqStream_append crc _ _ _ _ hs1len, chppRxRun_append] at hst'
    obtain ⟨hrd1, he1, hdg1, hloc1, hdel1⟩ :=
      chppRxRun_chunks crc mtu a hmtu16 (chppFragmentBytes mtu d) s
        (sched.take (chppFragmentBytes mtu d).length) st hchne hready hexp
        (chppFragmentBytes_mem mtu hmtu d)
        (by rw [List.length_take]; omega)
        (by
          intro pr hpr cb hcb
          refine hcorr pr ?_ cb hcb
          rw [hzip]
          exact List.mem_append_left _ hpr)
        _ rfl
    obtain ⟨hrd2, hdg2, he2, hdel2⟩ :=
      ih (s + (chppFragmentBytes mtu d).length)
        (sched.drop (chppFragmentBytes mtu d).length) _ hrd1 hdg1 he1
        (fun x hx => hne x (by simp [hx]))
        (by
          rw [List.length_drop, hslen, hTx, List.length_append, hPk]
          omega)
        (by
          intro pr hpr cb hcb
          refine hcorr pr ?_ cb hcb
          rw [hzip]
          exact List.mem_append_right _ hpr)
        st' hst'
    refine ⟨hrd2, hdg2, ?_, ?_⟩
    · rw [he2, hTx, List.length_append, hPk]
      omega
    · rw [hdel2, hdel1, hnil]
      rw [chppFragmentBytes_flatten mtu hmtu d]
      simp

/-- A concrete 32-bit checksum function used to instantiate the
 machine-checked examples: the byte sum (the spec leaves the checksum
 algorithm implementation-defined, section 4.1). -/
def chppCrcExample (l : List Nat) : Nat := l.foldl (fun x y => x + y) 0

/-- C1: For every sequence of datagrams with payload lengths satisfying
 0 < len(P) <= queue_capacity * max_datagram_size that are successfully
 enqueued on one endpoint, the peer's application dispatch callback
 receives exactly those datagrams, in the same order, exactly once
 each, with byte-for-byte identical contents, even when the link
 delivers the byte stream with corruption of individual packets
 (recovered via ARQ retransmission).  Corruption is modelled as any
 checksum-detectable corruption that preserves the frame's preamble and
 declared length (CorruptedFrame); every corrupted delivery is followed
 by the sender's retransmission of the same packet, and duplicate
 deliveries of an already-accepted packet (retransmissions due to lost
 acknowledgments) are rejected without redelivery. -/
theorem claim_c1_reliable_in_order_delivery
    (crc : List Nat → Nat) (mtu a s : Nat) (datagrams : List (List Nat))
    (sched : List PacketAttempts)
    (hmtu : 0 < mtu) (hmtu16 : mtu < 65536)
    (hlen : ∀ d ∈ datagrams, d ≠ [])
    (hqueue : datagrams.length ≤ CHPP_TX_DATAGRAM_QUEUE_LEN)
    (hsched : sched.length = (chppTxPackets mtu a s datagrams).length)
    (hcorr : ∀ pr ∈ List.zip (chppTxPackets mtu a s datagrams) sched,
      ∀ cb ∈ pr.2.corrupts, CorruptedFrame crc pr.1.1.length cb) :
    (chppRxRun crc mtu (chppInitRxMachine s)
      (chppArqStream crc (chppTxPackets mtu a s datagrams) sched)).delivered =
      datagrams := by
  obtain ⟨_, _, _, hdel⟩ :=
    chppRxRun_datagrams crc mtu a hmtu hmtu16 datagrams s sched
      (chppInitRxMachine s) ⟨rfl, rfl, rfl⟩ rfl rfl hlen hsched hcorr _ rfl
  simpa using hdel

/-- Witness for C1 on concrete inputs: two datagrams, the first packet
 delivered corrupted once and duplicated once after acceptance, the
 third packet delivered corrupted once; the dispatch callback receives
 exactly the two datagrams in order. -/
theorem claim_c1_witness :
    (chppRxRun chppCrcExample 2 (chppInitRxMachine 0)
      (chppArqStream chppCrcExample (chppTxPackets 2 0 0 [[7], [8, 9, 10]])
        [⟨[[104, 67, 0, 0, 0, 0, 1, 0, 0, 0, 6, 179, 0, 0, 0]], 1⟩,
         ⟨[], 0⟩,
         ⟨[[104, 67, 0, 0, 0, 2, 1, 0, 0, 0, 11, 184, 0, 0, 0]], 0⟩])).delivered =
      [[7], [8, 9, 10]] :=
  claim_c1_reliable_in_order_delivery chppCrcExample 2 0 0 [[7], [8, 9, 10]]
    [⟨[[104, 67, 0, 0, 0, 0, 1, 0, 0, 0, 6, 179, 0, 0, 0]], 1⟩,
     ⟨[], 0⟩,
     ⟨[[104, 67, 0, 0, 0, 2, 1, 0, 0, 0, 11, 184, 0, 0, 0]], 0⟩]
    (by decide) (by decide) (by decide) (by decide) (by decide) (by decide)

/-- C7: For every datagram of length N = 3*MTU + 1 bytes, the Transmit
 Engine emits exactly 4 packets: the first three carry MTU payload
 bytes each with the unfinished-datagram flag set, the fourth carries
 the remaining 1 byte with the flag clear, and the receiver's
 reassembled datagram equals the original N bytes. -/
theorem claim_c7_fragmentation_three_mtu_plus_one
    (crc : List Nat → Nat) (mtu s a : Nat) (d : List Nat)
    (hmtu : 0 < mtu) (hmtu16 : mtu < 65536)
    (hN : d.length = 3 * mtu + 1) :
    (chppPacketizeDatagram mtu s a d).length = 4 ∧
    (chppPacketizeDatagram mtu s a d).map (fun pk => pk.1.flags) =
      [CHPP_TRANSPORT_FLAG_UNFINISHED_DATAGRAM,
       CHPP_TRANSPORT_FLAG_UNFINISHED_DATAGRAM,
       CHPP_TRANSPORT_FLAG_UNFINISHED_DATAGRAM,
       CHPP_TRANSPORT_FLAG_FINISHED_DATAGRAM] ∧
    (chppPacketizeDatagram mtu s a d).map (fun pk => pk.2.length) =
      [mtu, mtu, mtu, 1] ∧
    (chppRxRun crc mtu (chppInitRxMachine s)
      (chppArqStream crc (chppPacketizeDatagram mtu s a d)
        (List.replicate 4 ⟨[], 0⟩))).delivered = [d] := by
  have h1ne : d ≠ [] := by
    intro hn
    rw [hn] at hN
    simp at hN
  have h2ne : d.drop mtu ≠ [] := by
    intro hn
    have := congrArg List.length hn
    rw [List.length_drop] at this
    simp at this
    omega
  have h3ne : (d.drop mtu).drop mtu ≠ [] := by
    intro hn
    have := congrArg List.length hn
    rw [List.length_drop, List.length_drop] at this
    simp at this
    omega
  have h4ne : ((d.drop mtu).drop mtu).drop mtu ≠ [] := by
    intro hn
    have := congrArg List.length hn
    rw [List.length_drop, List.length_drop, List.length_drop] at this
    simp at this
    omega
  have h4len : (((d.drop mtu).drop mtu).drop mtu).length = 1 := by
    rw [List.length_drop, List.length_drop, List.length_drop]
    omega
  have hc : chppFragmentBytes mtu d =
      [d.take mtu, (d.drop mtu).take mtu, ((d.drop mtu).drop mtu).take mtu,
       ((d.drop mtu).drop mtu).drop mtu] := by
    rw [chppFragmentBytes_cons mtu hmtu d h1ne,
      chppFragmentBytes_cons mtu hmtu _ h2ne,
      chppFragmentBytes_cons mtu hmtu _ h3ne,
      chppFragmentBytes_cons mtu hmtu _ h4ne]
    rw [show (((d.drop mtu).drop mtu).drop mtu).drop mtu = [] from by
      apply List.eq_nil_of_length_eq_zero
      rw [List.length_drop, h4len]
      omega]
    rw [chppFragmentBytes_nil]
    rw [show (((d.drop mtu).drop mtu).drop mtu).take mtu =
        ((d.drop mtu).drop mtu).drop mtu from by
      apply List.take_of_length_le
      rw [h4len]
      omega]
  have hl1 : (d.take mtu).length = mtu := by
    rw [List.length_take]
    omega
  have hl2 : ((d.drop mtu).take mtu).length = mtu := by
    rw [List.length_take, List.length_drop]
    omega
  have hl3 : (((d.drop mtu).drop mtu).take mtu).length = mtu := by
    rw [List.length_take, List.length_drop, List.length_drop]
    omega
  have hp : chppPacketizeDatagram mtu s a d =
      [({ flags := CHPP_TRANSPORT_FLAG_UNFINISHED_DATAGRAM, packetCode := 0,
          ackSeq := a % 256, seq := s % 256, length := (d.take mtu).length,
          reserved := 0 }, d.take mtu),
       ({ flags := CHPP_TRANSPORT_FLAG_UNFINISHED_DATAGRAM, packetCode := 0,
          ackSeq := a % 256, seq := (s + 1) % 256,
          length := ((d.drop mtu).take mtu).length, reserved := 0 },
         (d.drop mtu).take mtu),
       ({ flags := CHPP_TRANSPORT_FLAG_UNFINISHED_DATAGRAM, packetCode := 0,
          ackSeq := a % 256, seq := (s + 1 + 1) % 256,
          length := (((d.drop mtu).drop mtu).take mtu).length,
          reserved := 0 }, ((d.drop mtu).drop mtu).take mtu),
       ({ flags := CHPP_TRANSPORT_FLAG_FINISHED_DATAGRAM, packetCode := 0,
          ackSeq := a % 256, seq := (s + 1 + 1 + 1) % 256,
          length := (((d.drop mtu).drop mtu).drop mtu).length,
          reserved := 0 }, ((d.drop mtu).drop mtu).drop mtu)] := by
    rw [chppPacketizeDatagram, hc]
    rfl
  refine ⟨by rw [hp]; rfl, by rw [hp]; rfl, ?_, ?_⟩
  · rw [hp]
    simp only [List.map_cons, List.map_nil, hl2, hl3, hl1, h4len]
  · have hTx : chppTxPackets mtu a s [d] = chppPacketizeDatagram mtu s a d := by
      show chppPacketizeDatagram mtu s a d ++ chppTxPackets mtu a _ [] =
        chppPacketizeDatagram mtu s a d
      rw [show chppTxPackets mtu a
        (s + (chppFragmentBytes mtu d).length) [] = [] from rfl]
      rw [List.append_nil]
    obtain ⟨_, _, _, hdel⟩ :=
      chppRxRun_datagrams crc mtu a hmtu hmtu16 [d] s
        (List.replicate 4 ⟨[], 0⟩) (chppInitRxMachine s) ⟨rfl, rfl, rfl⟩ rfl rfl
        (by intro x hx; rw [List.mem_singleton] at hx; subst hx; exact h1ne)
        (by
          rw [hTx, hp]
          rfl)
        (by
          intro pr hpr cb hcb
          have hmem2 := (List.of_mem_zip hpr).2
          have : pr.2 = ⟨[], 0⟩ := List.eq_of_mem_replicate hmem2
          rw [this] at hcb
          simp at hcb)
        _ rfl
    rw [hTx] at hdel
    simpa using hdel

/-- Witness for C7 on concrete inputs: MTU 2, a 7-byte datagram. -/
theorem claim_c7_witness :
    (chppPacketizeDatagram 2 0 0 [1, 2, 3, 4, 5, 6, 7]).length = 4 ∧
    (chppPacketizeDatagram 2 0 0 [1, 2, 3, 4, 5, 6, 7]).map
        (fun pk => pk.1.flags) =
      [CHPP_TRANSPORT_FLAG_UNFINISHED_DATAGRAM,
       CHPP_TRANSPORT_FLAG_UNFINISHED_DATAGRAM,
       CHPP_TRANSPORT_FLAG_UNFINISHED_DATAGRAM,
       CHPP_TRANSPORT_FLAG_FINISHED_DATAGRAM] ∧
    (chppPacketizeDatagram 2 0 0 [1, 2, 3, 4, 5, 6, 7]).map
        (fun pk => pk.2.length) = [2, 2, 2, 1] ∧
    (chppRxRun chppCrcExample 2 (chppInitRxMachine 0)
      (chppArqStream chppCrcExample (chppPacketizeDatagram 2 0 0 [1, 2, 3, 4, 5, 6, 7])
        (List.replicate 4 ⟨[], 0⟩))).delivered = [[1, 2, 3, 4, 5, 6, 7]] :=
  claim_c7_fragmentation_three_mtu_plus_one chppCrcExample 2 0 0
    [1, 2, 3, 4, 5, 6, 7] (by decide) (by decide) (by decide)

/-- C5: Receiving an invalid packet never advances the receive sequence
 state: a packet failing checksum verification, or checksum-valid but
 out of order, is discarded entirely (including any partial payload
 contribution to the in-progress reassembly buffer), expectedSeq and
 receivedAckSeq are not advanced (the non-advance of the ack is the
 implicit retransmission request), and the out-of-order case is
 reported with error code ORDER, distinct from CHECKSUM. -/
theorem claim_c5_invalid_packet_no_advance
    (crc : List Nat → Nat) (mtu : Nat) (st : RxMachine)
    (hready : RxReady st) :
    (∀ (len : Nat) (bad : List Nat), CorruptedFrame crc len bad →
      len ≤ mtu →
      RxObsEq (chppRxRun crc mtu st bad) st ∧
      (chppRxRun crc mtu st bad).packetCodeToSend =
        CHPP_TRANSPORT_ERROR_CHECKSUM) ∧
    (∀ (h : ChppTransportHeader) (p : List Nat), HeaderInRange h →
      p.length = h.length → h.length ≤ mtu → 0 < h.length →
      h.seq ≠ st.expectedSeq →
      RxObsEq (chppRxRun crc mtu st (chppEncodePacket crc h p)) st ∧
      (chppRxRun crc mtu st (chppEncodePacket crc h p)).packetCodeToSend =
        CHPP_TRANSPORT_ERROR_ORDER) ∧
    CHPP_TRANSPORT_ERROR_ORDER ≠ CHPP_TRANSPORT_ERROR_CHECKSUM := by
  refine ⟨?_, ?_, by decide⟩
  · intro len bad hc hmtu
    rw [chppRxRun_corrupted_frame crc mtu st len bad hready hc hmtu]
    exact ⟨⟨rfl, rfl, rfl, rfl, rfl⟩, rfl⟩
  · intro h p hr hlen hmtu hpos hseq
    rw [chppRxRun_order_frame crc mtu st h p hready hr hlen hmtu hpos hseq]
    exact ⟨⟨rfl, rfl, rfl, rfl, rfl⟩, rfl⟩

/-- Witness for C5: a concrete mid-reassembly receive state, a corrupted
 frame and an out-of-order frame. -/
theorem claim_c5_witness :
    (RxObsEq (chppRxRun chppCrcExample 100 (chppInitRxMachine 0)
        [104, 67, 0, 0, 0, 0, 1, 0, 0, 0, 6, 179, 0, 0, 0])
      (chppInitRxMachine 0) ∧
      (chppRxRun chppCrcExample 100 (chppInitRxMachine 0)
        [104, 67, 0, 0, 0, 0, 1, 0, 0, 0, 6, 179, 0, 0, 0]).packetCodeToSend =
        CHPP_TRANSPORT_ERROR_CHECKSUM) ∧
    (RxObsEq (chppRxRun chppCrcExample 100 (chppInitRxMachine 0)
        (chppEncodePacket chppCrcExample
          { flags := 0, packetCode := 0, ackSeq := 0, seq := 9, length := 1,
            reserved := 0 } [7]))
      (chppInitRxMachine 0) ∧
      (chppRxRun chppCrcExample 100 (chppInitRxMachine 0)
        (chppEncodePacket chppCrcExample
          { flags := 0, packetCode := 0, ackSeq := 0, seq := 9, length := 1,
            reserved := 0 } [7])).packetCodeToSend =
        CHPP_TRANSPORT_ERROR_ORDER) :=
  ⟨(claim_c5_invalid_packet_no_advance chppCrcExample 100
      (chppInitRxMachine 0) (by decide)).1 1
      [104, 67, 0, 0, 0, 0, 1, 0, 0, 0, 6, 179, 0, 0, 0]
      (by decide) (by decide),
   (claim_c5_invalid_packet_no_advance chppCrcExample 100
      (chppInitRxMachine 0) (by decide)).2.1
      { flags := 0, packetCode := 0, ackSeq := 0, seq := 9, length := 1,
        reserved := 0 } [7]
      (by decide) (by decide) (by decide) (by decide) (by decide)⟩

/-- Counterexample for C6: a zero-length, checksum-valid packet whose
 seq field numerically equals expectedSeq and whose unfinished flag is
 clear.  C6 as stated requires that processing it advance expectedSeq
 to seq + 1 and deliver the accumulated reassembly buffer; the model,
 following the spec's rule that the seq field is absent/ignored for
 zero-length packets (section 3) and that ack-only packets reuse the
 previous sequence number without requiring an ack (section 4.3),
 leaves expectedSeq at 0 (not 1) and delivers nothing, while the packet
 is otherwise accepted (its ackSeq, 3, is recorded). -/
theorem claim_c6_counterexample :
    (chppRxRun chppCrcExample 100 (chppInitRxMachine 0)
      (chppEncodePacket chppCrcExample
        { flags := 0, packetCode := 0, ackSeq := 3, seq := 0, length := 0,
          reserved := 0 } [])).receivedAckSeq = 3 ∧
    (chppRxRun chppCrcExample 100 (chppInitRxMachine 0)
      (chppEncodePacket chppCrcExample
        { flags := 0, packetCode := 0, ackSeq := 3, seq := 0, length := 0,
          reserved := 0 } [])).expectedSeq = 0 ∧
    (0 : Nat) ≠ (0 + 1) % 256 ∧
    (chppRxRun chppCrcExample 100 (chppInitRxMachine 0)
      (chppEncodePacket chppCrcExample
        { flags := 0, packetCode := 0, ackSeq := 3, seq := 0, length := 0,
          reserved := 0 } [])).delivered = [] := by decide

/-- C6 as amended: for every checksum-valid packet with seq equal to
 expectedSeq that is payload-bearing (length > 0), processing the
 footer sets expectedSeq to seq + 1 (modulo 256) and receivedAckSeq to
 the packet's ackSeq; if the unfinished-datagram flag is clear the
 accumulated buffer is delivered to the application dispatch callback
 and reset to empty, and if set the buffer is retained with its offset
 for the next fragment.  A zero-length (ack-only) packet updates
 receivedAckSeq only, leaving expectedSeq, the buffer, and the
 delivered list unchanged. -/
theorem claim_c6_amended_footer_success
    (crc : List Nat → Nat) (mtu : Nat) (st : RxMachine)
    (h : ChppTransportHeader) (p : List Nat)
    (hready : RxReady st) (hr : HeaderInRange h)
    (hlen : p.length = h.length) (hmtu : h.length ≤ mtu)
    (hseq : h.seq = st.expectedSeq) :
    (0 < h.length → h.flags % 2 = 0 →
      (chppRxRun crc mtu st (chppEncodePacket crc h p)).expectedSeq =
          (h.seq + 1) % 256 ∧
        (chppRxRun crc mtu st (chppEncodePacket crc h p)).receivedAckSeq =
          h.ackSeq ∧
        (chppRxRun crc mtu st (chppEncodePacket crc h p)).delivered =
          st.delivered ++ [st.rxDatagram ++ p] ∧
        (chppRxRun crc mtu st (chppEncodePacket crc h p)).rxDatagram = [] ∧
        (chppRxRun crc mtu st (chppEncodePacket crc h p)).locInDatagram = 0) ∧
    (0 < h.length → h.flags % 2 = 1 →
      (chppRxRun crc mtu st (chppEncodePacket crc h p)).expectedSeq =
          (h.seq + 1) % 256 ∧
        (chppRxRun crc mtu st (chppEncodePacket crc h p)).receivedAckSeq =
          h.ackSeq ∧
        (chppRxRun crc mtu st (chppEncodePacket crc h p)).rxDatagram =
          st.rxDatagram ++ p ∧
        (chppRxRun crc mtu st (chppEncodePacket crc h p)).locInDatagram =
          st.locInDatagram + p.length ∧
        (chppRxRun crc mtu st (chppEncodePacket crc h p)).delivered =
          st.delivered) ∧
    (h.length = 0 →
      (chppRxRun crc mtu st (chppEncodePacket crc h p)).receivedAckSeq =
          h.ackSeq ∧
        (chppRxRun crc mtu st (chppEncodePacket crc h p)).expectedSeq =
          st.expectedSeq ∧
        (chppRxRun crc mtu st (chppEncodePacket crc h p)).rxDatagram =
          st.rxDatagram ∧
        (chppRxRun crc mtu st (chppEncodePacket crc h p)).delivered =
          st.delivered) := by
  refine ⟨?_, ?_, ?_⟩
  · intro hpos hflag
    rw [chppRxRun_good_frame_finished crc mtu st h p hready hr hlen hmtu
      hpos hseq hflag]
    exact ⟨rfl, rfl, rfl, rfl, rfl⟩
  · intro hpos hflag
    rw [chppRxRun_good_frame_unfinished crc mtu st h p hready hr hlen hmtu
      hpos hseq hflag]
    exact ⟨rfl, rfl, rfl, rfl, rfl⟩
  · intro hzero
    have hp0 : p = [] := by
      apply List.eq_nil_of_length_eq_zero
      rw [hlen, hzero]
    subst hp0
    rw [chppRxRun_zero_frame crc mtu st h hready hr hzero]
    exact ⟨rfl, rfl, rfl, rfl⟩

/-- Witness for the amended C6: an unfinished fragment on a concrete
 state retains the payload in the reassembly buffer, advances
 expectedSeq and records ackSeq. -/
theorem claim_c6_amended_witness :
    (chppRxRun chppCrcExample 100 (chppInitRxMachine 5)
      (chppEncodePacket chppCrcExample
        { flags := 1, packetCode := 0, ackSeq := 2, seq := 5, length := 1,
          reserved := 0 } [9])).expectedSeq = (5 + 1) % 256 ∧
    (chppRxRun chppCrcExample 100 (chppInitRxMachine 5)
      (chppEncodePacket chppCrcExample
        { flags := 1, packetCode := 0, ackSeq := 2, seq := 5, length := 1,
          reserved := 0 } [9])).receivedAckSeq = 2 ∧
    (chppRxRun chppCrcExample 100 (chppInitRxMachine 5)
      (chppEncodePacket chppCrcExample
        { flags := 1, packetCode := 0, ackSeq := 2, seq := 5, length := 1,
          reserved := 0 } [9])).rxDatagram =
      (chppInitRxMachine 5).rxDatagram ++ [9] := by
  have hmain :=
    (claim_c6_amended_footer_success chppCrcExample 100 (chppInitRxMachine 5)
      { flags := 1, packetCode := 0, ackSeq := 2, seq := 5, length := 1,
        reserved := 0 } [9]
      (by decide) (by decide) (by decide) (by decide) (by decide)).2.1
      (by decide) (by decide)
  exact ⟨hmain.1, hmain.2.1, hmain.2.2.1⟩

/-- C10: for every input buffer and length, chppRxDataCb returns true if
 and only if, after consuming all the provided bytes, the receive state
 machine is in the CHPP_STATE_PREAMBLE state; concretely, a complete
 valid packet leaves the machine back at PREAMBLE (returns true), while
 a bare preamble leaves it mid-packet in HEADER (returns false). -/
theorem claim_c10_rx_data_cb_return
    (crc : List Nat → Nat) (mtu : Nat) (st : RxMachine) (buf : List Nat) :
    ((chppRxDataCb crc mtu st buf).2 = true ↔
      (chppRxDataCb crc mtu st buf).1.state = ChppRxState.preamble) ∧
    (chppRxDataCb chppCrcExample 100 (chppInitRxMachine 0)
      [104, 67, 0, 0, 0, 0, 1, 0, 0, 0, 7, 179, 0, 0, 0]).2 = true ∧
    (chppRxDataCb chppCrcExample 100 (chppInitRxMachine 0) [104, 67]).2 =
      false := by
  refine ⟨?_, by decide, by decide⟩
  simp [chppRxDataCb]

/-! ## Outbound datagram queue (Transmit Engine, C2 and C3) -/

/-- Struct ChppDatagram, transport.h lines 300-307: a datagram payload
 with its explicit length. -/
structure ChppDatagram where
  length : Nat
  payload : List Nat
deriving Repr, DecidableEq

/-- Struct ChppTxDatagramQueue, transport.h lines 309-323: a bounded
 circular collection of pending datagrams with a pending count, the
 index of the front datagram, and the location counter within the front
 datagram. -/
structure ChppTxDatagramQueue where
  pending : Nat
  front : Nat
  loc : Nat
  datagram : List ChppDatagram
deriving Repr, DecidableEq

/-- Modelled from the spec: chppEnqueueTxDatagramOrFail (declared in
 transport.h lines 416-432, implementation absent).  Per the spec
 (sections 4.3 and 8) and the header's documented contract, enqueueing
 fails, without blocking, exactly when the queue already holds
 CHPP_TX_DATAGRAM_QUEUE_LEN pending datagrams; on success the datagram
 is written into the ring slot after the last pending one ((front +
 pending) modulo the capacity) and the pending count grows by one.  The
 first returned Boolean is the success result; the second records
 whether the transport freed (discarded) the caller's payload buffer
 during the call: per the contract in transport.h lines 421-422 and
 428-429, an unsuccessful enqueue frees the payload ("If enqueueing a
 datagram is unsuccessful, the payload is freed (discarded)"), while a
 successful enqueue keeps it until it is sent and frees it
 asynchronously afterwards. -/
def chppEnqueueTxDatagramOrFail (q : ChppTxDatagramQueue)
    (buf : List Nat) : ChppTxDatagramQueue × Bool × Bool :=
  if CHPP_TX_DATAGRAM_QUEUE_LEN ≤ q.pending then (q, false, true)
  else
    ({ q with
       pending := q.pending + 1
       datagram := q.datagram.set
         ((q.front + q.pending) % CHPP_TX_DATAGRAM_QUEUE_LEN)
         ⟨buf.length, buf⟩ },
     true, false)

/-- C2: chppEnqueueTxDatagramOrFail returns false exactly when the
 outbound Tx datagram queue already holds CHPP_TX_DATAGRAM_QUEUE_LEN
 (= 16) pending datagrams; for every queue state (satisfying the
 capacity invariant pending <= 16), enqueue either appends the datagram
 into the next ring slot and returns true (pending < 16) or returns
 false immediately with the state unchanged (pending = 16), and the
 queue capacity is never exceeded.  The model is a total function, so
 the result is always produced synchronously (never blocks). -/
theorem claim_c2_enqueue_fail_iff_full (q : ChppTxDatagramQueue)
    (buf : List Nat) (hinv : q.pending ≤ CHPP_TX_DATAGRAM_QUEUE_LEN) :
    ((chppEnqueueTxDatagramOrFail q buf).2.1 = false ↔
      q.pending = CHPP_TX_DATAGRAM_QUEUE_LEN) ∧
    (q.pending < CHPP_TX_DATAGRAM_QUEUE_LEN →
      (chppEnqueueTxDatagramOrFail q buf).2.1 = true ∧
      (chppEnqueueTxDatagramOrFail q buf).1.pending = q.pending + 1 ∧
      (chppEnqueueTxDatagramOrFail q buf).1.datagram =
        q.datagram.set ((q.front + q.pending) % CHPP_TX_DATAGRAM_QUEUE_LEN)
          ⟨buf.length, buf⟩) ∧
    (q.pending = CHPP_TX_DATAGRAM_QUEUE_LEN →
      (chppEnqueueTxDatagramOrFail q buf).2.1 = false ∧
      (chppEnqueueTxDatagramOrFail q buf).1 = q) ∧
    (chppEnqueueTxDatagramOrFail q buf).1.pending ≤
      CHPP_TX_DATAGRAM_QUEUE_LEN := by
  by_cases hfull : CHPP_TX_DATAGRAM_QUEUE_LEN ≤ q.pending
  · have heq : q.pending = CHPP_TX_DATAGRAM_QUEUE_LEN := by omega
    simp [chppEnqueueTxDatagramOrFail, hfull, heq]
  · have hlt : q.pending < CHPP_TX_DATAGRAM_QUEUE_LEN := by omega
    simp [chppEnqueueTxDatagramOrFail, hfull]
    omega

/-- Witness for C2: a queue holding three datagrams accepts a new one,
 and a full queue rejects it with the state unchanged. -/
theorem claim_c2_witness :
    (((chppEnqueueTxDatagramOrFail
        { pending := 16, front := 2, loc := 0,
          datagram := List.replicate 16 ⟨0, []⟩ } [5]).2.1 = false ↔
      (16 : Nat) = CHPP_TX_DATAGRAM_QUEUE_LEN)) ∧
    ((16 : Nat) < CHPP_TX_DATAGRAM_QUEUE_LEN →
      (chppEnqueueTxDatagramOrFail
        { pending := 16, front := 2, loc := 0,
          datagram := List.replicate 16 ⟨0, []⟩ } [5]).2.1 = true ∧
      (chppEnqueueTxDatagramOrFail
        { pending := 16, front := 2, loc := 0,
          datagram := List.replicate 16 ⟨0, []⟩ } [5]).1.pending = 16 + 1 ∧
      (chppEnqueueTxDatagramOrFail
        { pending := 16, front := 2, loc := 0,
          datagram := List.replicate 16 ⟨0, []⟩ } [5]).1.datagram =
        (List.replicate 16 (⟨0, []⟩ : ChppDatagram)).set
          ((2 + 16) % CHPP_TX_DATAGRAM_QUEUE_LEN) ⟨1, [5]⟩) ∧
    ((16 : Nat) = CHPP_TX_DATAGRAM_QUEUE_LEN →
      (chppEnqueueTxDatagramOrFail
        { pending := 16, front := 2, loc := 0,
          datagram := List.replicate 16 ⟨0, []⟩ } [5]).2.1 = false ∧
      (chppEnqueueTxDatagramOrFail
        { pending := 16, front := 2, loc := 0,
          datagram := List.replicate 16 ⟨0, []⟩ } [5]).1 =
        { pending := 16, front := 2, loc := 0,
          datagram := List.replicate 16 ⟨0, []⟩ }) ∧
    (chppEnqueueTxDatagramOrFail
        { pending := 16, front := 2, loc := 0,
          datagram := List.replicate 16 ⟨0, []⟩ } [5]).1.pending ≤
      CHPP_TX_DATAGRAM_QUEUE_LEN :=
  claim_c2_enqueue_fail_iff_full
    { pending := 16, front := 2, loc := 0,
      datagram := List.replicate 16 ⟨0, []⟩ } [5] (by decide)

/-- Counterexample for C3: C3 states that on a failed (queue-full)
 enqueue the caller retains ownership of the payload and must dispose
 of it itself, the transport not freeing or consuming it.  The
 documented contract in transport.h (lines 421-422: "If enqueueing a
 datagram is unsuccessful, the payload is freed (discarded)"; line 429:
 "False informs the sender that the queue was full and the payload
 discarded") says the transport frees the rejected payload itself: at a
 full queue the failed call consumes (frees) the payload. -/
theorem claim_c3_counterexample :
    (chppEnqueueTxDatagramOrFail
      { pending := 16, front := 0, loc := 0,
        datagram := List.replicate 16 ⟨0, []⟩ } [1, 2]).2.1 = false ∧
    (chppEnqueueTxDatagramOrFail
      { pending := 16, front := 0, loc := 0,
        datagram := List.replicate 16 ⟨0, []⟩ } [1, 2]).2.2 = true := by
  decide

/-- C3 as amended: when chppEnqueueTxDatagramOrFail fails because the
 queue is full, the transport itself frees (discards) the rejected
 payload — the caller is informed by the false return and must not use
 or free the buffer — and the transport queue state (contents, pending
 count) is unchanged by the failed call. -/
theorem claim_c3_amended_failed_enqueue_frees
    (q : ChppTxDatagramQueue) (buf : List Nat)
    (hfull : CHPP_TX_DATAGRAM_QUEUE_LEN ≤ q.pending) :
    (chppEnqueueTxDatagramOrFail q buf).2.1 = false ∧
    (chppEnqueueTxDatagramOrFail q buf).2.2 = true ∧
    (chppEnqueueTxDatagramOrFail q buf).1 = q := by
  simp [chppEnqueueTxDatagramOrFail, hfull]

/-- Witness for the amended C3 at a concrete full queue. -/
theorem claim_c3_amended_witness :
    (chppEnqueueTxDatagramOrFail
      { pending := 16, front := 1, loc := 2,
        datagram := List.replicate 16 ⟨0, []⟩ } [9]).2.1 = false ∧
    (chppEnqueueTxDatagramOrFail
      { pending := 16, front := 1, loc := 2,
        datagram := List.replicate 16 ⟨0, []⟩ } [9]).2.2 = true ∧
    (chppEnqueueTxDatagramOrFail
      { pending := 16, front := 1, loc := 2,
        datagram := List.replicate 16 ⟨0, []⟩ } [9]).1 =
      { pending := 16, front := 1, loc := 2,
        datagram := List.replicate 16 ⟨0, []⟩ } :=
  claim_c3_amended_failed_enqueue_frees
    { pending := 16, front := 1, loc := 2,
      datagram := List.replicate 16 ⟨0, []⟩ } [9] (by decide)

/-- C4: the wire encoding of every packet is bit-exact as specified: a
 2-byte preamble 0x68 0x43 on the wire, then the packed header (flags,
 packetCode, ackSeq, seq, 16-bit little-endian length, 16-bit reserved),
 then exactly length payload bytes, then a 4-byte checksum footer; the
 error codes occupy the low nibble of packetCode with the enumerated
 values and the attributes the high nibble with values 0/1/2; decoding
 an encoded packet recovers the header and payload exactly. -/
theorem claim_c4_wire_format (crc : List Nat → Nat)
    (h : ChppTransportHeader) (p : List Nat)
    (hr : HeaderInRange h) (hlen : p.length = h.length) :
    chppEncodePacket crc h p =
      [0x68, 0x43] ++
        [h.flags % 256, h.packetCode % 256, h.ackSeq % 256, h.seq % 256,
         h.length % 256, (h.length / 256) % 256,
         h.reserved % 256, (h.reserved / 256) % 256] ++ p ++
        serializeU32 (crc (chppPreambleBytes ++ chppSerializeHeader h ++ p)) ∧
    CHPP_PREAMBLE_BYTE_FIRST = 0x68 ∧ CHPP_PREAMBLE_BYTE_SECOND = 0x43 ∧
    chppDecodePacket crc (chppEncodePacket crc h p) = some (h, p) ∧
    (CHPP_TRANSPORT_ERROR_NONE = 0 ∧ CHPP_TRANSPORT_ERROR_CHECKSUM = 1 ∧
     CHPP_TRANSPORT_ERROR_OOM = 2 ∧ CHPP_TRANSPORT_ERROR_BUSY = 3 ∧
     CHPP_TRANSPORT_ERROR_HEADER = 4 ∧ CHPP_TRANSPORT_ERROR_ORDER = 5 ∧
     CHPP_TRANSPORT_ERROR_APPLAYER = 6 ∧ CHPP_TRANSPORT_ERROR_TIMEOUT = 15) ∧
    (chppPacketAttr CHPP_TRANSPORT_ATTR_NONE = 0 ∧
     chppPacketAttr CHPP_TRANSPORT_ATTR_RESET = 1 ∧
     chppPacketAttr CHPP_TRANSPORT_ATTR_RESET_ACK = 2 ∧
     chppPacketError CHPP_TRANSPORT_ATTR_RESET = 0 ∧
     chppPacketError CHPP_TRANSPORT_ATTR_RESET_ACK = 0) := by
  have hbody : (chppPreambleBytes ++ chppSerializeHeader h ++ p).length =
      10 + h.length := by
    rw [List.length_append, List.length_append, chppSerializeHeader_length]
    rw [show chppPreambleBytes.length = 2 from rfl, hlen]
  have hE : chppEncodePacket crc h p =
      (chppPreambleBytes ++ chppSerializeHeader h ++ p) ++
        serializeU32 (crc (chppPreambleBytes ++ chppSerializeHeader h ++ p)) :=
    rfl
  have hblen : (chppEncodePacket crc h p).length = 14 + h.length := by
    rw [hE, List.length_append, hbody, serializeU32_length]
    omega
  have hE1 : chppEncodePacket crc h p =
      chppPreambleBytes ++ (chppSerializeHeader h ++ (p ++
        serializeU32 (crc (chppPreambleBytes ++ chppSerializeHeader h ++ p)))) := by
    rw [hE]
    simp [List.append_assoc]
  have hE2 : chppEncodePacket crc h p =
      (chppPreambleBytes ++ chppSerializeHeader h) ++ (p ++
        serializeU32 (crc (chppPreambleBytes ++ chppSerializeHeader h ++ p))) := by
    rw [hE]
    simp [List.append_assoc]
  have htake2 : (chppEncodePacket crc h p).take 2 = chppPreambleBytes := by
    rw [hE1]
    exact List.take_left' rfl
  have hdrop2 : ((chppEncodePacket crc h p).drop 2).take 8 =
      chppSerializeHeader h := by
    rw [hE1, List.drop_left' (show chppPreambleBytes.length = 2 from rfl)]
    exact List.take_left' (chppSerializeHeader_length h)
  have hparse : chppParseHeader (((chppEncodePacket crc h p).drop 2).take 8) =
      h := by
    rw [hdrop2]
    exact parse_serialize_header h hr
  have hdrop10 : ((chppEncodePacket crc h p).drop 10).take h.length = p := by
    rw [hE2, List.drop_left' (by
      rw [List.length_append, chppSerializeHeader_length]
      rfl)]
    exact List.take_left' hlen
  have hdropF : (chppEncodePacket crc h p).drop (10 + h.length) =
      serializeU32 (crc (chppPreambleBytes ++ chppSerializeHeader h ++ p)) := by
    rw [hE]
    exact List.drop_left' hbody
  have htakeB : (chppEncodePacket crc h p).take (10 + h.length) =
      chppPreambleBytes ++ chppSerializeHeader h ++ p := by
    rw [hE]
    exact List.take_left' hbody
  refine ⟨?_, by decide, by decide, ?_, by decide, by decide⟩
  · rw [hE]
    rw [show chppPreambleBytes = [0x68, 0x43] from by decide]
    rw [show chppSerializeHeader h =
      [h.flags % 256, h.packetCode % 256, h.ackSeq % 256, h.seq % 256,
       h.length % 256, (h.length / 256) % 256,
       h.reserved % 256, (h.reserved / 256) % 256] from rfl]
    try simp [List.append_assoc]
  · rw [chppDecodePacket]
    rw [if_neg (by rw [hblen]; omega)]
    rw [if_neg (by rw [htake2]; simp)]
    rw [if_neg (by rw [hparse, hblen]; simp)]
    rw [if_neg (by
      rw [hparse, hdropF, htakeB, parse_serialize_u32]
      simp)]
    rw [hparse, hdrop10]

/-- Witness for C4 at a concrete header and payload. -/
theorem claim_c4_witness :
    chppEncodePacket chppCrcExample
        { flags := 1, packetCode := 0x21, ackSeq := 7, seq := 9, length := 2, reserved := 0 } [250, 251] =
      [0x68, 0x43] ++ [1, 0x21, 7, 9, 2, 0, 0, 0] ++ [250, 251] ++
        serializeU32 (chppCrcExample (chppPreambleBytes ++
          chppSerializeHeader
            { flags := 1, packetCode := 0x21, ackSeq := 7, seq := 9, length := 2, reserved := 0 } ++ [250, 251])) ∧
    chppDecodePacket chppCrcExample (chppEncodePacket chppCrcExample
        { flags := 1, packetCode := 0x21, ackSeq := 7, seq := 9, length := 2, reserved := 0 } [250, 251]) =
      some ({ flags := 1, packetCode := 0x21, ackSeq := 7, seq := 9, length := 2, reserved := 0 }, [250, 251]) := by
  have hmain := claim_c4_wire_format chppCrcExample
    { flags := 1, packetCode := 0x21, ackSeq := 7, seq := 9, length := 2, reserved := 0 }
    [250, 251] (by decide) (by decide)
  exact ⟨hmain.1, hmain.2.2.2.1⟩

/-! ## Transmit engine window and sequence numbering (C8) -/

/-- Modelled from the spec: one packet pending transmission to the link
 layer, following struct PendingTxPacket (transport.h lines 292-298)
 but carrying the structured header and payload rather than the
 serialized bytes. -/
structure PendingTxPacket where
  header : ChppTransportHeader
  payload : List Nat
deriving Repr, DecidableEq

/-- Modelled from the spec: the transmit engine of spec section 4.3
 (transport.c absent).  The fields follow struct ChppTxStatus and
 ChppTxDatagramQueue (transport.h lines 261-290 and 309-323): the FIFO
 queue of pending datagram payloads, how many bytes of the front
 datagram have been sent and acknowledged (sentLocInDatagram,
 ackedLocInDatagram), the last sent sequence and acknowledgment numbers
 (sentSeq, sentAckSeq), and the payload-bearing packets sent but not
 yet acknowledged.  The outstanding packets are kept as a list so the
 single-packet window is a provable invariant of the reachable states
 rather than a property imposed by the state's type. -/
structure ChppTxEngine where
  queue : List (List Nat)
  sentLocInDatagram : Nat
  ackedLocInDatagram : Nat
  sentSeq : Nat
  sentAckSeq : Nat
  outstanding : List PendingTxPacket
deriving Repr, DecidableEq

/-- The events driving the transmit engine: packetize-and-send the next
 unsent bytes (carrying the current receive-side ack number), process a
 received acknowledgment, send a zero-length ack-only packet, and
 retransmit on timeout. -/
inductive ChppTxAction where
  | send (ackSeq : Nat)
  | recvAck (ackSeq : Nat)
  | sendAckOnly (ackSeq : Nat)
  | retransmit
deriving Repr, DecidableEq

/-- Modelled from the spec (section 4.3): one transmit-engine step,
 returning the new engine state and the packets handed to the link.
 send packetizes up to mtu unsent bytes of the head-of-queue datagram
 and is guarded on the single-packet window being free (window = 1:
 at most one unacknowledged packet at a time); the packet's sequence
 number is the running counter incremented by one, and the
 unfinished-datagram flag is set when bytes remain after this packet.
 recvAck retires the outstanding packet when the received ackSeq
 advances past its sequence number, and pops the head-of-queue datagram
 once it is fully acknowledged.  sendAckOnly emits a zero-length packet
 reusing the previous sequence number; it does not join the outstanding
 window, so it never awaits an acknowledgment.  retransmit hands the
 same unacknowledged packet to the link unchanged. -/
def chppTxStep (mtu : Nat) (e : ChppTxEngine) (act : ChppTxAction) :
    ChppTxEngine × List PendingTxPacket :=
  match act with
  | ChppTxAction.send a =>
      match e.queue with
      | [] => (e, [])
      | d :: _ =>
          if e.outstanding = [] ∧ e.sentLocInDatagram < d.length then
            ({ e with
               sentLocInDatagram := e.sentLocInDatagram +
                 ((d.drop e.sentLocInDatagram).take mtu).length
               sentSeq := (e.sentSeq + 1) % 256
               sentAckSeq := a % 256
               outstanding := e.outstanding ++
                 [{ header :=
                      { flags := if e.sentLocInDatagram +
                            ((d.drop e.sentLocInDatagram).take mtu).length <
                            d.length
                          then CHPP_TRANSPORT_FLAG_UNFINISHED_DATAGRAM
                          else CHPP_TRANSPORT_FLAG_FINISHED_DATAGRAM
                        packetCode := 0
                        ackSeq := a % 256
                        seq := (e.sentSeq + 1) % 256
                        length := ((d.drop e.sentLocInDatagram).take mtu).length
                        reserved := 0 }
                    payload := (d.drop e.sentLocInDatagram).take mtu }] },
             [{ header :=
                  { flags := if e.sentLocInDatagram +
                        ((d.drop e.sentLocInDatagram).take mtu).length <
                        d.length
                      then CHPP_TRANSPORT_FLAG_UNFINISHED_DATAGRAM
                      else CHPP_TRANSPORT_FLAG_FINISHED_DATAGRAM
                    packetCode := 0
                    ackSeq := a % 256
                    seq := (e.sentSeq + 1) % 256
                    length := ((d.drop e.sentLocInDatagram).take mtu).length
                    reserved := 0 }
                payload := (d.drop e.sentLocInDatagram).take mtu }])
          else (e, [])
  | ChppTxAction.recvAck a =>
      match e.outstanding with
      | [] => (e, [])
      | pkt :: rest =>
          if a = (pkt.header.seq + 1) % 256 then
            match e.queue with
            | [] =>
                ({ e with
                   outstanding := rest
                   ackedLocInDatagram := e.sentLocInDatagram }, [])
            | d :: ds =>
                if d.length ≤ e.sentLocInDatagram then
                  ({ e with
                     outstanding := rest
                     queue := ds
                     sentLocInDatagram := 0
                     ackedLocInDatagram := 0 }, [])
                else
                  ({ e with
                     outstanding := rest
                     ackedLocInDatagram := e.sentLocInDatagram }, [])
          else (e, [])
  | ChppTxAction.sendAckOnly a =>
      ({ e with sentAckSeq := a % 256 },
        [{ header :=
             { flags := CHPP_TRANSPORT_FLAG_FINISHED_DATAGRAM
               packetCode := 0
               ackSeq := a % 256
               seq := e.sentSeq
               length := 0
               reserved := 0 }
           payload := [] }])
  | ChppTxAction.retransmit => (e, e.outstanding)

/-- Runs the transmit engine over a sequence of events. -/
def chppTxRun (mtu : Nat) (e : ChppTxEngine) (acts : List ChppTxAction) :
    ChppTxEngine :=
  acts.foldl (fun e a => (chppTxStep mtu e a).1) e

/-- The transmit engine at boot with a given outbound queue: nothing
 sent, nothing outstanding. -/
def chppTxInit (q : List (List Nat)) : ChppTxEngine :=
  { queue := q
    sentLocInDatagram := 0
    ackedLocInDatagram := 0
    sentSeq := 0
    sentAckSeq := 0
    outstanding := [] }

theorem chppTxStep_window (mtu : Nat) (e : ChppTxEngine)
    (act : ChppTxAction) (hw : e.outstanding.length ≤ 1) :
    (chppTxStep mtu e act).1.outstanding.length ≤ 1 := by
  cases act with
  | send a =>
    rcases hq : e.queue with _ | ⟨d, ds⟩
    · simp [chppTxStep, hq, hw]
    · by_cases hg : e.outstanding = [] ∧ e.sentLocInDatagram < d.length
      · simp [chppTxStep, hq, hg, hg.1]
      · simp [chppTxStep, hq, hg, hw]
  | recvAck a =>
    rcases ho : e.outstanding with _ | ⟨pkt, rest⟩
    · simp [chppTxStep, ho, hw]
    · rw [ho] at hw
      simp only [List.length_cons] at hw
      by_cases ha : a = (pkt.header.seq + 1) % 256
      · rcases hq : e.queue with _ | ⟨d, ds⟩
        · simp [chppTxStep, ho, ha, hq]
          omega
        · by_cases hd : d.length ≤ e.sentLocInDatagram
          · simp [chppTxStep, ho, ha, hq, hd]
            omega
          · simp [chppTxStep, ho, ha, hq, hd]
            omega
      · simp only [chppTxStep, ho, if_neg ha]
        simpa [ho] using hw
  | sendAckOnly a => simpa [chppTxStep] using hw
  | retransmit => simpa [chppTxStep] using hw

/-- C8: the transmit window is exactly 1 in every reachable state — the
 engine never has more than one unacknowledged payload-bearing packet
 outstanding; the transmit sequence counter is incremented by exactly 1
 for each payload-bearing packet sent; and zero-length ack-only packets
 reuse the previous sequence number and never join the set of packets
 awaiting acknowledgment. -/
theorem claim_c8_single_packet_window (mtu : Nat) :
    (∀ (q : List (List Nat)) (acts : List ChppTxAction),
      (chppTxRun mtu (chppTxInit q) acts).outstanding.length ≤ 1) ∧
    (∀ (e : ChppTxEngine) (a : Nat) (d : List Nat) (rest : List (List Nat)),
      e.queue = d :: rest → e.outstanding = [] →
      e.sentLocInDatagram < d.length →
      (chppTxStep mtu e (ChppTxAction.send a)).2.map
          (fun pk => pk.header.seq) = [(e.sentSeq + 1) % 256] ∧
        (chppTxStep mtu e (ChppTxAction.send a)).1.sentSeq =
          (e.sentSeq + 1) % 256) ∧
    (∀ (e : ChppTxEngine) (a : Nat),
      (chppTxStep mtu e (ChppTxAction.sendAckOnly a)).2.map
          (fun pk => (pk.header.seq, pk.header.length)) = [(e.sentSeq, 0)] ∧
        (chppTxStep mtu e (ChppTxAction.sendAckOnly a)).1.sentSeq =
          e.sentSeq ∧
        (chppTxStep mtu e (ChppTxAction.sendAckOnly a)).1.outstanding =
          e.outstanding) ∧
    (∀ e : ChppTxEngine,
      (chppTxStep mtu e ChppTxAction.retransmit).2 = e.outstanding ∧
        (chppTxStep mtu e ChppTxAction.retransmit).1 = e) := by
  refine ⟨?_, ?_, ?_, ?_⟩
  · intro q acts
    have key : ∀ (as : List ChppTxAction) (e : ChppTxEngine),
        e.outstanding.length ≤ 1 → (chppTxRun mtu e as).outstanding.length ≤ 1 := by
      intro as
      induction as with
      | nil => intro e he; exact he
      | cons act as ih =>
        intro e he
        exact ih _ (chppTxStep_window mtu e act he)
    exact key acts (chppTxInit q) (by simp [chppTxInit])
  · intro e a d rest hq hout hloc
    simp [chppTxStep, hq, hout, hloc]
  · intro e a
    simp [chppTxStep]
  · intro e
    simp [chppTxStep]

/-- Witness for C8: a run with two queued datagrams, a send, a spurious
 and a matching acknowledgment, an ack-only packet and a retransmission
 keeps at most one packet outstanding; the sub-properties are realized
 at a concrete engine state. -/
theorem claim_c8_witness :
    (chppTxRun 2 (chppTxInit [[1, 2, 3], [4]])
      [ChppTxAction.send 0, ChppTxAction.retransmit, ChppTxAction.recvAck 2,
       ChppTxAction.sendAckOnly 1, ChppTxAction.send 1]).outstanding.length ≤ 1 ∧
    ((chppTxStep 2 (chppTxInit [[1, 2, 3], [4]]) (ChppTxAction.send 0)).2.map
        (fun pk => pk.header.seq) = [(0 + 1) % 256] ∧
      (chppTxStep 2 (chppTxInit [[1, 2, 3], [4]])
        (ChppTxAction.send 0)).1.sentSeq = (0 + 1) % 256) :=
  ⟨(claim_c8_single_packet_window 2).1 [[1, 2, 3], [4]]
      [ChppTxAction.send 0, ChppTxAction.retransmit, ChppTxAction.recvAck 2,
       ChppTxAction.sendAckOnly 1, ChppTxAction.send 1],
   (claim_c8_single_packet_window 2).2.1 (chppTxInit [[1, 2, 3], [4]]) 0
      [1, 2, 3] [[4]] rfl rfl (by decide)⟩

/-! ## Reset handshake (C9) -/

/-- Modelled from the spec (section 4.4) and the contract of
 chppTransportSendReset (transport.h lines 506-520): the per-endpoint
 state the reset handshake touches — the receive-side expected sequence
 number and the transmit-side sent sequence number, the reset state,
 the packets in flight awaiting acknowledgment, the datagrams already
 delivered to the application, and the endpoint's transport
 configuration sent as the payload of reset and reset-ack packets. -/
structure ChppResetEndpoint where
  expectedSeq : Nat
  sentSeq : Nat
  resetState : ChppResetState
  outstanding : List PendingTxPacket
  delivered : List (List Nat)
  config : ChppTransportConfiguration
deriving Repr, DecidableEq

/-- Modelled from the spec: a reset or reset-ack control packet carrying
 the endpoint's configuration as payload; the header's reset flag is
 set and the attribute occupies the most significant nibble of
 packetCode. -/
def chppMakeResetPacket (attr : Nat) (cfg : ChppTransportConfiguration) :
    PendingTxPacket :=
  { header :=
      { flags := CHPP_TRANSPORT_FLAG_RESET
        packetCode := attr
        ackSeq := 0
        seq := 0
        length := (chppSerializeConfig cfg).length
        reserved := 0 }
    payload := chppSerializeConfig cfg }

/-- Modelled from the spec: chppTransportSendReset (transport.h lines
 506-520, implementation absent) — transmits a reset or reset-ack
 packet with the transport layer's configuration as its payload;
 sending a RESET puts the endpoint in the RESETTING state. -/
def chppTransportSendReset (e : ChppResetEndpoint) (attr : Nat) :
    ChppResetEndpoint × PendingTxPacket :=
  (if attr = CHPP_TRANSPORT_ATTR_RESET then
     { e with resetState := ChppResetState.resetting }
   else e,
   chppMakeResetPacket attr e.config)

/-- Modelled from the spec (section 4.4): the transport state after a
 completed reset — both sequence counters zero, the in-flight
 unacknowledged packets discarded (never delivered to the application),
 reset state NONE. -/
def chppResetEndpointState (e : ChppResetEndpoint) : ChppResetEndpoint :=
  { e with
    expectedSeq := 0
    sentSeq := 0
    outstanding := []
    resetState := ChppResetState.none }

/-- Modelled from the spec (section 4.4): receiving a reset or reset-ack
 control packet.  A RESET packet resets the transport state and is
 answered with a RESET_ACK carrying the receiver's own configuration
 and a transition to NONE; a RESET_ACK received while RESETTING
 completes the reset (transition to NONE); any other packet leaves the
 reset machinery untouched. -/
def chppProcessResetPacket (e : ChppResetEndpoint) (pkt : PendingTxPacket) :
    ChppResetEndpoint × List PendingTxPacket :=
  if chppPacketAttr pkt.header.packetCode =
      chppPacketAttr CHPP_TRANSPORT_ATTR_RESET then
    (chppResetEndpointState e,
      [chppMakeResetPacket CHPP_TRANSPORT_ATTR_RESET_ACK e.config])
  else if chppPacketAttr pkt.header.packetCode =
        chppPacketAttr CHPP_TRANSPORT_ATTR_RESET_ACK ∧
      e.resetState = ChppResetState.resetting then
    (chppResetEndpointState e, [])
  else (e, [])

/-- C9: after a completed reset exchange (a RESET packet from endpoint A
 answered by B's RESET_ACK, observed by A while RESETTING), both
 endpoints' transmit and receive sequence counters are 0, the packets
 that were in flight but unacknowledged are discarded and never
 delivered to the application (each endpoint's delivered list is
 unchanged and its outstanding list empty); B answers the RESET with a
 RESET_ACK carrying its own configuration and transitions to NONE, and
 A, on receiving the RESET_ACK while RESETTING, transitions to NONE. -/
theorem claim_c9_reset_exchange (A B : ChppResetEndpoint) :
    (chppTransportSendReset A CHPP_TRANSPORT_ATTR_RESET).1.resetState =
      ChppResetState.resetting ∧
    (chppProcessResetPacket B
      (chppTransportSendReset A CHPP_TRANSPORT_ATTR_RESET).2).2 =
      [chppMakeResetPacket CHPP_TRANSPORT_ATTR_RESET_ACK B.config] ∧
    chppPacketAttr (chppMakeResetPacket CHPP_TRANSPORT_ATTR_RESET_ACK
      B.config).header.packetCode = 2 ∧
    (chppMakeResetPacket CHPP_TRANSPORT_ATTR_RESET_ACK B.config).payload =
      chppSerializeConfig B.config ∧
    (chppProcessResetPacket B
      (chppTransportSendReset A CHPP_TRANSPORT_ATTR_RESET).2).1.expectedSeq = 0 ∧
    (chppProcessResetPacket B
      (chppTransportSendReset A CHPP_TRANSPORT_ATTR_RESET).2).1.sentSeq = 0 ∧
    (chppProcessResetPacket B
      (chppTransportSendReset A CHPP_TRANSPORT_ATTR_RESET).2).1.resetState =
      ChppResetState.none ∧
    (chppProcessResetPacket B
      (chppTransportSendReset A CHPP_TRANSPORT_ATTR_RESET).2).1.outstanding = [] ∧
    (chppProcessResetPacket B
      (chppTransportSendReset A CHPP_TRANSPORT_ATTR_RESET).2).1.delivered =
      B.delivered ∧
    (chppProcessResetPacket
      (chppTransportSendReset A CHPP_TRANSPORT_ATTR_RESET).1
      (chppMakeResetPacket CHPP_TRANSPORT_ATTR_RESET_ACK B.config)).1.expectedSeq
      = 0 ∧
    (chppProcessResetPacket
      (chppTransportSendReset A CHPP_TRANSPORT_ATTR_RESET).1
      (chppMakeResetPacket CHPP_TRANSPORT_ATTR_RESET_ACK B.config)).1.sentSeq
      = 0 ∧
    (chppProcessResetPacket
      (chppTransportSendReset A CHPP_TRANSPORT_ATTR_RESET).1
      (chppMakeResetPacket CHPP_TRANSPORT_ATTR_RESET_ACK B.config)).1.resetState
      = ChppResetState.none ∧
    (chppProcessResetPacket
      (chppTransportSendReset A CHPP_TRANSPORT_ATTR_RESET).1
      (chppMakeResetPacket CHPP_TRANSPORT_ATTR_RESET_ACK B.config)).1.outstanding
      = [] ∧
    (chppProcessResetPacket
      (chppTransportSendReset A CHPP_TRANSPORT_ATTR_RESET).1
      (chppMakeResetPacket CHPP_TRANSPORT_ATTR_RESET_ACK B.config)).1.delivered
      = A.delivered := by
  refine ⟨?_, ?_, ?_, ?_, ?_, ?_, ?_, ?_, ?_, ?_, ?_, ?_, ?_, ?_⟩ <;>
    simp [chppTransportSendReset, chppProcessResetPacket,
      chppResetEndpointState, chppMakeResetPacket, chppPacketAttr,
      CHPP_TRANSPORT_ATTR_RESET, CHPP_TRANSPORT_ATTR_RESET_ACK,
      CHPP_TRANSPORT_ATTR_VALUE, CHPP_TRANSPORT_FLAG_RESET]

end Chpp
